import Mathlib

/-!
The unik AWS provider: `RunInstance`.

A shallow embedding of `pkg/providers/aws/run_instance.go`.

* A Go `map[string]string` is a list of its entries, in the order in which
  `range` visits them in the run at hand; a lookup is `List.lookup`.
* The process-wide registry `p.state` (`map[string]*types.Instance`) is a
  function from identifiers to optional records.
* Every collaborator (`p.GetImage`, `json.Marshal`, the EC2 client,
  `p.StopInstance`, `p.AttachVolume`, `p.StartInstance`, `time.Now`) is a field
  of `AwsProvider`.  A control-plane call receives the events recorded so far,
  so its outcome may depend on the whole history of the run.  A collaborator
  returns an outcome; it does not write the registry, and the lines it may log
  are not recorded.
* Every control-plane call is appended, with its outcome, to a trace.
* The deferred function of lines 24-35 runs on every exit, on the named result
  `err` and the local variable `instanceId`.
* `*string` fields of EC2 results are strings; a nil pointer is not modelled.
-/

namespace Unik

/-- A Go `map[string]string`: its entries in the iteration order of this run. -/
abbrev GoMap := List (String × String)

/-- An `error` value: one produced by a collaborator, or one built by
`lxerrors.New(msg, err)`, which records its message and the wrapped error. -/
inductive Err where
  | external (msg : String)
  | plain (msg : String)
  | wrapped (msg : String) (cause : Err)
  deriving DecidableEq, Repr

namespace lxerrors

/-- Go `lxerrors.New(msg, err)`; `err` may be `nil`. -/
def New (msg : String) (err : Option Err) : Err :=
  match err with
  | none => Err.plain msg
  | some e => Err.wrapped msg e

end lxerrors

/-- Go `types.DeviceMapping`. -/
structure DeviceMapping where
  MountPoint : String
  DeviceName : String
  deriving DecidableEq, Repr

/-- Go `types.Image`, the fields `RunInstance` reads. -/
structure Image where
  Id : String
  DeviceMappings : List DeviceMapping
  deriving DecidableEq, Repr

/-- Go `types.InstanceState`. -/
inductive InstanceState where
  | Pending | Running | Stopped | Terminated
  deriving DecidableEq, Repr

/-- Go `types.Infrastructure`. -/
inductive Infrastructure where
  | AWS | Other (tag : String)
  deriving DecidableEq, Repr

/-- Go `types.Instance`. -/
structure Instance where
  Id : String
  Name : String
  State : InstanceState
  Infrastructure : Infrastructure
  ImageId : String
  Created : Nat
  deriving DecidableEq, Repr

/-- The instance registry `p.state`: `map[string]*types.Instance`. -/
abbrev Registry := String → Option Instance

/-- Go `ec2.Instance`, the field `RunInstance` reads. -/
structure Ec2Instance where
  InstanceId : String
  deriving DecidableEq, Repr

/-- Go `ec2.RunInstancesInput`. -/
structure RunInstancesInput where
  ImageId : String
  MinCount : Int
  MaxCount : Int
  UserData : String
  deriving DecidableEq, Repr

/-- Go `ec2.Tag`. -/
structure Tag where
  Key : String
  Value : String
  deriving DecidableEq, Repr

/-- Go `ec2.CreateTagsInput`. -/
structure CreateTagsInput where
  Resources : List String
  Tags : List Tag
  deriving DecidableEq, Repr

/-- Go `ec2.TerminateInstancesInput`. -/
structure TerminateInstancesInput where
  InstanceIds : List String
  deriving DecidableEq, Repr

/-- The tag key `UNIK_INSTANCE_ID`, declared elsewhere in the package. -/
def UNIK_INSTANCE_ID : String := "UNIK_INSTANCE_ID"

deriving instance DecidableEq for Except

/-- A control-plane call together with its outcome. -/
inductive Event where
  | runInstances (input : RunInstancesInput) (out : Except Err (List Ec2Instance))
  | stopInstance (instanceId : String) (out : Option Err)
  | attachVolume (volumeId instanceId mountPoint : String) (out : Option Err)
  | startInstance (instanceId : String) (out : Option Err)
  | createTags (input : CreateTagsInput) (out : Option Err)
  | terminateInstances (input : TerminateInstancesInput) (out : Option Err)
  deriving DecidableEq

/-- The identifiers of a terminate call; `none` for every other call. -/
def Event.terminated : Event → Option (List String)
  | .terminateInstances input _ => some input.InstanceIds
  | _ => none

/-- The arguments `(volumeId, instanceId, mountPoint)` of an attach call. -/
def Event.attached : Event → Option (String × String × String)
  | .attachVolume v i m _ => some (v, i, m)
  | _ => none

/-- Level of a log line. -/
inductive Level where
  | debug | info | warn | error
  deriving DecidableEq, Repr

/-- A value attached to a log line by `WithFields` or `WithErr`. -/
inductive Field where
  | str (s : String)
  | strMap (m : GoMap)
  | mappings (ds : List DeviceMapping)
  | output (insts : List Ec2Instance)
  | inst (i : Instance)
  | err (e : Err)
  deriving DecidableEq, Repr

/-- One line written to the `lxlog.Logger`. -/
structure LogEntry where
  level : Level
  fields : List (String × Field)
  msg : String
  deriving DecidableEq, Repr

/-- The logger: the lines written so far, oldest first. -/
abbrev Logger := List LogEntry

/-- Write one line. -/
def Logger.write (l : Logger) (level : Level) (fields : List (String × Field))
    (msg : String) : Logger :=
  l ++ [⟨level, fields, msg⟩]

/-- The provider `p` with its EC2 client and the library calls `RunInstance`
makes.  None of these is defined in the file; each is a parameter. -/
structure AwsProvider where
  GetImage : String → Except Err Image
  jsonMarshal : GoMap → Except Err String
  base64EncodeToString : String → String
  timeNow : Nat
  RunInstances : List Event → RunInstancesInput → Except Err (List Ec2Instance)
  StopInstance : List Event → String → Option Err
  AttachVolume : List Event → String → String → String → Option Err
  StartInstance : List Event → String → Option Err
  CreateTags : List Event → CreateTagsInput → Option Err
  TerminateInstances : List Event → TerminateInstancesInput → Option Err

/-- Modelled from the spec: `p.state.ModifyInstances` is not in the file; the
spec describes it as an atomic read-modify-write that applies the update
function to the whole mapping. -/
def ModifyInstances (instances : Registry) (f : Registry → Registry) : Registry :=
  f instances

/-- Go map assignment `instances[k] = v`. -/
def Registry.set (instances : Registry) (k : String) (v : Instance) : Registry :=
  fun k' => if k' = k then some v else instances k'

/-- The mutable state of one run: the logger, the trace of control-plane
calls, the registry, and the local variable `instanceId` that the deferred
cleanup reads. -/
structure St where
  logger : Logger
  trace : List Event
  instances : Registry
  instanceId : String

/-- The loop of `verifyMntsInput` (lines 132-142) over the device mappings. -/
def verifyMntsInput.loop (logger : Logger) (image : Image) (mntPointsToVolumeIds : GoMap) :
    List DeviceMapping → Logger × Option Err
  | [] => (logger, none)
  | deviceMapping :: rest =>
    if deviceMapping.MountPoint = "/" then
      verifyMntsInput.loop logger image mntPointsToVolumeIds rest
    else
      match mntPointsToVolumeIds.lookup deviceMapping.MountPoint with
      | some _ => verifyMntsInput.loop logger image mntPointsToVolumeIds rest
      | none =>
        (logger.write .error [("required-device-mappings", .mappings image.DeviceMappings)]
            ("requied mount point missing: " ++ deviceMapping.MountPoint),
          some (lxerrors.New "required mount point missing from input" none))

/-- The function `verifyMntsInput` (lines 131-144). -/
def verifyMntsInput (logger : Logger) (image : Image) (mntPointsToVolumeIds : GoMap) :
    Logger × Option Err :=
  verifyMntsInput.loop logger image mntPointsToVolumeIds image.DeviceMappings

/-- The `range` loop of lines 79-85. -/
def RunInstance.attachLoop (p : AwsProvider) (instanceId : String) :
    GoMap → St → Option Err × St
  | [], s => (none, s)
  | (mountPoint, volumeId) :: rest, s =>
    let logger := s.logger.write .debug [("volume-id", .str volumeId)]
      ("attaching volume " ++ volumeId ++ " to intance " ++ instanceId)
    let out := p.AttachVolume s.trace volumeId instanceId mountPoint
    let s1 : St := { s with logger := logger,
                            trace := s.trace ++ [.attachVolume volumeId instanceId mountPoint out] }
    match out with
    | some err => (some (lxerrors.New "attaching volume to instance" (some err)), s1)
    | none => RunInstance.attachLoop p instanceId rest s1

/-- Lines 73-90: stop, attach every volume, start; skipped for an empty map. -/
def RunInstance.attachVolumes (p : AwsProvider) (mntPointsToVolumeIds : GoMap) (s : St) :
    Option Err × St :=
  if mntPointsToVolumeIds.length > 0 then
    let logger := s.logger.write .debug [] "stopping instance for volume attach"
    let out := p.StopInstance s.trace s.instanceId
    let s1 : St := { s with logger := logger,
                            trace := s.trace ++ [.stopInstance s.instanceId out] }
    match out with
    | some err => (some (lxerrors.New "failed to stop instance for attachin volumes" (some err)), s1)
    | none =>
      match RunInstance.attachLoop p s1.instanceId mntPointsToVolumeIds s1 with
      | (some err, s2) => (some err, s2)
      | (none, s2) =>
        let out := p.StartInstance s2.trace s2.instanceId
        let s3 : St := { s2 with trace := s2.trace ++ [.startInstance s2.instanceId out] }
        match out with
        | some err => (some (lxerrors.New "starting instance after volume attach" (some err)), s3)
        | none => (none, s3)
  else (none, s)

/-- Lines 92-128: tag the instance, build the record, register it. -/
def RunInstance.tagAndRegister (p : AwsProvider) (name : String) (image : Image) (s : St) :
    Except Err Instance × St :=
  let tagObjects : CreateTagsInput :=
    { Resources := [s.instanceId],
      Tags := [⟨UNIK_INSTANCE_ID, s.instanceId⟩, ⟨"Name", name⟩] }
  let out := p.CreateTags s.trace tagObjects
  let s1 : St := { s with trace := s.trace ++ [.createTags tagObjects out] }
  match out with
  | some err => (.error (lxerrors.New "tagging snapshot, image, and volume" (some err)), s1)
  | none =>
    let inst : Instance :=
      { Id := s1.instanceId, Name := name, State := .Pending, Infrastructure := .AWS,
        ImageId := image.Id, Created := p.timeNow }
    let instances := ModifyInstances s1.instances (fun instances => instances.set inst.Id inst)
    let logger := s1.logger.write .info [("instance", .inst inst)] "instance created succesfully"
    (.ok inst, { s1 with instances := instances, logger := logger })

/-- Format of `%v` for a length. -/
def fmtLen (n : Nat) : String := toString n

/-- The body of `RunInstance` (lines 37-128), without the deferred cleanup. -/
def RunInstance.body (p : AwsProvider) (name imageId : String)
    (mntPointsToVolumeIds env : GoMap) (s : St) : Except Err Instance × St :=
  match p.GetImage imageId with
  | .error err => (.error (lxerrors.New "getting image" (some err)), s)
  | .ok image =>
    match verifyMntsInput s.logger image mntPointsToVolumeIds with
    | (logger, some err) => (.error err, { s with logger := logger })
    | (logger, none) =>
      let s : St := { s with logger := logger }
      match p.jsonMarshal env with
      | .error err => (.error (lxerrors.New "could not convert instance env to json" (some err)), s)
      | .ok envData =>
        let encodedData := p.base64EncodeToString envData
        let runInstanceInput : RunInstancesInput :=
          { ImageId := image.Id, MinCount := 1, MaxCount := 1, UserData := encodedData }
        let out := p.RunInstances s.trace runInstanceInput
        let s : St := { s with trace := s.trace ++ [.runInstances runInstanceInput out] }
        match out with
        | .error err => (.error (lxerrors.New "failed to run instance" (some err)), s)
        | .ok [] =>
          let logger := s.logger.write .error [("output", .output [])]
            ("run instance " ++ name ++ " failed, produced " ++ fmtLen 0 ++
              " instances, expected 1")
          (.error (lxerrors.New "expected 1 instance to be created" none),
            { s with logger := logger })
        | .ok (first :: others) =>
          let s : St := { s with instanceId := first.InstanceId }
          if (first :: others).length > 1 then
            let logger := s.logger.write .error [("output", .output (first :: others))]
              ("run instance " ++ name ++ " failed, produced " ++
                fmtLen (first :: others).length ++ " instances, expected 1")
            (.error (lxerrors.New "expected 1 instance to be created" none),
              { s with logger := logger })
          else
            match RunInstance.attachVolumes p mntPointsToVolumeIds s with
            | (some err, s) => (.error err, s)
            | (none, s) => RunInstance.tagAndRegister p name image s

/-- The deferred function of lines 24-35; `err` is the named result. -/
def RunInstance.deferred (p : AwsProvider) (err : Option Err) (s : St) : St :=
  match err with
  | none => s
  | some e =>
    let logger := s.logger.write .error [("error", .err e)]
      "aws running instance encountered an error"
    let s : St := { s with logger := logger }
    if s.instanceId ≠ "" then
      let logger := s.logger.write .warn [] ("cleaning up instance " ++ s.instanceId)
      let terminateInstanceInput : TerminateInstancesInput := { InstanceIds := [s.instanceId] }
      let out := p.TerminateInstances s.trace terminateInstanceInput
      { s with logger := logger,
               trace := s.trace ++ [.terminateInstances terminateInstanceInput out] }
    else s

/-- What a run of `RunInstance` leaves behind. -/
structure Outcome where
  result : Except Err Instance
  trace : List Event
  logger : Logger
  instances : Registry

/-- The named result `err` at function exit. -/
def errOf (r : Except Err Instance) : Option Err :=
  match r with
  | .ok _ => none
  | .error e => some e

/-- The method `RunInstance` (lines 14-129), started on the registry `instances`. -/
def RunInstance (p : AwsProvider) (name imageId : String)
    (mntPointsToVolumeIds env : GoMap) (instances : Registry) : Outcome :=
  let logger : Logger := Logger.write [] .info
    [("image-id", .str imageId), ("mounts", .strMap mntPointsToVolumeIds), ("env", .strMap env)]
    ("running instance " ++ name)
  let s0 : St := { logger := logger, trace := [], instances := instances, instanceId := "" }
  let rs := RunInstance.body p name imageId mntPointsToVolumeIds env s0
  let s := RunInstance.deferred p (errOf rs.1) rs.2
  { result := rs.1, trace := s.trace, logger := s.logger, instances := s.instances }

/-! ## `DefaultRetryer`

A shallow embedding of `aws/client/default_retryer.go`.  The type
`request.Request` is not in the file: a request is the four values the retryer
reads from it.  Go `int` and `time.Duration` are 64-bit signed integers;
arithmetic wraps.  The value drawn by `rand.Intn(30)` is a parameter.
-/

/-- What the retryer reads from a `*request.Request`: the status code of
`r.HTTPResponse`, `r.RetryCount`, and the results of `r.IsErrorRetryable()`
and `r.IsErrorThrottle()`. -/
structure Request where
  StatusCode : Int
  RetryCount : Int
  IsErrorRetryable : Bool
  IsErrorThrottle : Bool
  deriving DecidableEq, Repr

/-- Go `DefaultRetryer`. -/
structure DefaultRetryer where
  NumMaxRetries : Int
  deriving DecidableEq, Repr

/-- Two's-complement wrap-around of a 64-bit signed integer. -/
def wrapInt64 (x : Int) : Int :=
  (x + 9223372036854775808) % 18446744073709551616 - 9223372036854775808

/-- Go `uint(n)` for an `int` `n`. -/
def toUint (n : Int) : Nat := (n % 18446744073709551616).toNat

/-- Go `1 << s` at type `int`, for an unsigned shift count `s`. -/
def shiftLeftOne (s : Nat) : Int :=
  if s < 64 then wrapInt64 (2 ^ s) else 0

/-- Go `time.Millisecond`, in nanoseconds. -/
def Millisecond : Int := 1000000

/-- The method `MaxRetries` (lines 28-30). -/
def DefaultRetryer.MaxRetries (d : DefaultRetryer) : Int :=
  d.NumMaxRetries

/-- The method `shouldThrottle` (lines 61-68). -/
def DefaultRetryer.shouldThrottle (_d : DefaultRetryer) (r : Request) : Bool :=
  if r.StatusCode = 502 ∨ r.StatusCode = 503 ∨ r.StatusCode = 504 then
    true
  else
    r.IsErrorThrottle

/-- The method `ShouldRetry` (lines 53-58). -/
def DefaultRetryer.ShouldRetry (d : DefaultRetryer) (r : Request) : Bool :=
  if r.StatusCode ≥ 500 then
    true
  else
    r.IsErrorRetryable || d.shouldThrottle r

/-- The method `RetryRules` (lines 33-50); `jitter` is the value returned by
`rand.Intn(30)`.  The result is a `time.Duration`, in nanoseconds. -/
def DefaultRetryer.RetryRules (d : DefaultRetryer) (r : Request) (jitter : Int) : Int :=
  let throttle := d.shouldThrottle r
  let minTime : Int := if throttle then 1000 else 30
  let retryCount : Int :=
    if r.RetryCount > 13 then 13
    else if throttle && decide (r.RetryCount > 8) then 8
    else r.RetryCount
  let delay := wrapInt64 (shiftLeftOne (toUint retryCount) * wrapInt64 (jitter + minTime))
  wrapInt64 (wrapInt64 delay * Millisecond)

/-! ## Vocabulary of the statements -/

/-- Some non-root device mapping of the image has a mount point that is not a
key of the mount specification. -/
def MissingMount (ds : List DeviceMapping) (m : GoMap) : Prop :=
  ∃ d ∈ ds, d.MountPoint ≠ "/" ∧ d.MountPoint ∉ m.map Prod.fst

/-- The error value `verifyMntsInput` returns. -/
def validationError : Err := lxerrors.New "required mount point missing from input" none

/-- The attach calls of a completed loop over the mount specification. -/
def attachEvents (id : String) (m : GoMap) : List Event :=
  m.map (fun e => Event.attachVolume e.2 id e.1 none)

/-- How the stop / attach / start sequence of lines 73-90 can end on the mount
specification `m` for the instance `id`: its result and the calls it made. -/
def AttachOutcome (m : GoMap) (id : String) (r : Option Err) (evs : List Event) : Prop :=
  (m = [] ∧ r = none ∧ evs = []) ∨
  (m ≠ [] ∧ r = none ∧
    evs = .stopInstance id none :: attachEvents id m ++ [.startInstance id none]) ∨
  (m ≠ [] ∧ ∃ e, r = some (lxerrors.New "failed to stop instance for attachin volumes" (some e)) ∧
    evs = [.stopInstance id (some e)]) ∨
  (m ≠ [] ∧ ∃ pre mp v post e, m = pre ++ (mp, v) :: post ∧
    r = some (lxerrors.New "attaching volume to instance" (some e)) ∧
    evs = .stopInstance id none :: attachEvents id pre ++ [.attachVolume v id mp (some e)]) ∨
  (m ≠ [] ∧ ∃ e, r = some (lxerrors.New "starting instance after volume attach" (some e)) ∧
    evs = .stopInstance id none :: attachEvents id m ++ [.startInstance id (some e)])

/-- The error of lines 64 and 70. -/
def mismatchError : Err := lxerrors.New "expected 1 instance to be created" none

/-- The request of lines 51-56. -/
def launchInput (p : AwsProvider) (image : Image) (envData : String) : RunInstancesInput :=
  { ImageId := image.Id, MinCount := 1, MaxCount := 1,
    UserData := p.base64EncodeToString envData }

/-- The request of lines 92-106. -/
def tagsInput (id name : String) : CreateTagsInput :=
  { Resources := [id], Tags := [⟨UNIK_INSTANCE_ID, id⟩, ⟨"Name", name⟩] }

/-- The record of lines 112-119. -/
def newInstance (p : AwsProvider) (id name : String) (image : Image) : Instance :=
  { Id := id, Name := name, State := .Pending, Infrastructure := .AWS,
    ImageId := image.Id, Created := p.timeNow }

/-- The calls of the deferred cleanup after the calls `tr`, when the run ends
with an error and `instanceId` holds `id`. -/
def cleanupEvents (p : AwsProvider) (tr : List Event) (id : String) : List Event :=
  if id ≠ "" then [.terminateInstances ⟨[id]⟩ (p.TerminateInstances tr ⟨[id]⟩)] else []

/-- The ways a run can end once the launch request `input` has been sent. -/
def PostLaunch (p : AwsProvider) (name : String) (image : Image) (m : GoMap) (R : Registry)
    (input : RunInstancesInput) (out : Outcome) : Prop :=
  let launch := p.RunInstances [] input
  let ev0 := Event.runInstances input launch
  (∃ err, launch = .error err ∧
    out.result = .error (lxerrors.New "failed to run instance" (some err)) ∧
    out.trace = [ev0] ∧ out.instances = R) ∨
  (launch = .ok [] ∧ out.result = .error mismatchError ∧ out.trace = [ev0] ∧ out.instances = R) ∨
  (∃ a b rest, launch = .ok (a :: b :: rest) ∧ out.result = .error mismatchError ∧
    out.trace = ev0 :: cleanupEvents p [ev0] a.InstanceId ∧ out.instances = R) ∨
  (∃ a evs err, launch = .ok [a] ∧ AttachOutcome m a.InstanceId (some err) evs ∧
    out.result = .error err ∧
    out.trace = ev0 :: evs ++ cleanupEvents p (ev0 :: evs) a.InstanceId ∧ out.instances = R) ∨
  (∃ a evs err, launch = .ok [a] ∧ AttachOutcome m a.InstanceId none evs ∧
    p.CreateTags (ev0 :: evs) (tagsInput a.InstanceId name) = some err ∧
    out.result = .error (lxerrors.New "tagging snapshot, image, and volume" (some err)) ∧
    out.trace = ev0 :: evs ++ .createTags (tagsInput a.InstanceId name) (some err) ::
      cleanupEvents p (ev0 :: evs ++ [.createTags (tagsInput a.InstanceId name) (some err)])
        a.InstanceId ∧
    out.instances = R) ∨
  (∃ a evs, launch = .ok [a] ∧ AttachOutcome m a.InstanceId none evs ∧
    p.CreateTags (ev0 :: evs) (tagsInput a.InstanceId name) = none ∧
    out.result = .ok (newInstance p a.InstanceId name image) ∧
    out.trace = ev0 :: evs ++ [.createTags (tagsInput a.InstanceId name) none] ∧
    out.instances = R.set a.InstanceId (newInstance p a.InstanceId name image))

/-- The ways a run of `RunInstance` can end. -/
def RunPaths (p : AwsProvider) (name imageId : String) (m env : GoMap) (R : Registry)
    (out : Outcome) : Prop :=
  (∃ err, p.GetImage imageId = .error err ∧
    out.result = .error (lxerrors.New "getting image" (some err)) ∧
    out.trace = [] ∧ out.instances = R) ∨
  (∃ image, p.GetImage imageId = .ok image ∧ MissingMount image.DeviceMappings m ∧
    out.result = .error validationError ∧ out.trace = [] ∧ out.instances = R) ∨
  (∃ image err, p.GetImage imageId = .ok image ∧ ¬ MissingMount image.DeviceMappings m ∧
    p.jsonMarshal env = .error err ∧
    out.result = .error (lxerrors.New "could not convert instance env to json" (some err)) ∧
    out.trace = [] ∧ out.instances = R) ∨
  (∃ image envData, p.GetImage imageId = .ok image ∧ ¬ MissingMount image.DeviceMappings m ∧
    p.jsonMarshal env = .ok envData ∧
    PostLaunch p name image m R (launchInput p image envData) out)

/-- The call ended with an error. -/
def Event.failed : Event → Bool
  | .runInstances _ (.error _) => true
  | .stopInstance _ (some _) => true
  | .attachVolume _ _ _ (some _) => true
  | .startInstance _ (some _) => true
  | .createTags _ (some _) => true
  | .terminateInstances _ (some _) => true
  | _ => false

/-- The first identifier returned by a successful, non-empty launch; `none`
for every other event. -/
def Event.launchedId : Event → Option String
  | .runInstances _ (.ok (a :: _)) => some a.InstanceId
  | _ => none

/-- The messages an error value carries, outermost first. -/
def Err.messages : Err → List String
  | .external msg => [msg]
  | .plain msg => [msg]
  | .wrapped msg cause => msg :: cause.messages

/-- The text occurs in one of the messages the error value carries. -/
def Err.mentions (e : Err) (text : String) : Prop :=
  ∃ msg ∈ e.messages, text.toList <:+: msg.toList

instance (e : Err) (text : String) : Decidable (e.mentions text) := by
  unfold Err.mentions; infer_instance

/-- The mount point of the first device mapping, other than the root mapping,
that is not a key of the mount specification. -/
def firstMissing (ds : List DeviceMapping) (m : GoMap) : Option String :=
  (ds.find? (fun d => decide (d.MountPoint ≠ "/" ∧ m.lookup d.MountPoint = none))).map
    (fun d => d.MountPoint)

/-- The call is a stop, an attach-volume or a start. -/
def Event.isAttachPhase : Event → Bool
  | .stopInstance _ _ => true
  | .attachVolume _ _ _ _ => true
  | .startInstance _ _ => true
  | _ => false

/-- The error a call ended with, if any. -/
def Event.outcomeError : Event → Option Err
  | .runInstances _ (.error e) => some e
  | .stopInstance _ out => out
  | .attachVolume _ _ _ out => out
  | .startInstance _ out => out
  | .createTags _ out => out
  | .terminateInstances _ out => out
  | _ => none

/-- The message with which `RunInstance` wraps the error of a stop, an
attach-volume or a start call (lines 77, 83, 88). -/
def attachPhaseMessage : Event → String
  | .stopInstance _ _ => "failed to stop instance for attachin volumes"
  | .attachVolume _ _ _ _ => "attaching volume to instance"
  | .startInstance _ _ => "starting instance after volume attach"
  | _ => ""

/-- The input and outcome of a create-tags call; `none` for every other call. -/
def Event.tagged : Event → Option (CreateTagsInput × Option Err)
  | .createTags input out => some (input, out)
  | _ => none

/-- The exponent `RetryRules` uses for a request (lines 41-46). -/
def usedExponent (d : DefaultRetryer) (r : Request) : Nat :=
  if r.RetryCount > 13 then 13
  else if d.shouldThrottle r = true ∧ r.RetryCount > 8 then 8
  else r.RetryCount.toNat

/-- The base delay `RetryRules` uses for a request, in milliseconds (lines 35-39). -/
def usedBase (d : DefaultRetryer) (r : Request) : Int :=
  if d.shouldThrottle r = true then 1000 else 30

/-! ## Concrete runs -/

/-- An image with a boot volume and one data volume. -/
def scenarioImage : Image :=
  { Id := "ami-1", DeviceMappings := [⟨"/", "/dev/sda1"⟩, ⟨"/data", "/dev/sdb"⟩] }

/-- An image with a boot volume only. -/
def bootImage : Image :=
  { Id := "ami-0", DeviceMappings := [⟨"/", "/dev/sda1"⟩] }

/-- The mount specification of scenario A. -/
def dataMounts : GoMap := [("/data", "vol-1")]

/-- A registry without entries. -/
def emptyRegistry : Registry := fun _ => none

/-- A provider whose image is `scenarioImage`, whose launch returns `i-1`
alone, and whose calls all succeed. -/
def okProvider : AwsProvider :=
  { GetImage := fun _ => .ok scenarioImage
    jsonMarshal := fun _ => .ok "\x7b\x7d"
    base64EncodeToString := fun _ => "e30="
    timeNow := 0
    RunInstances := fun _ _ => .ok [⟨"i-1"⟩]
    StopInstance := fun _ _ => none
    AttachVolume := fun _ _ _ _ => none
    StartInstance := fun _ _ => none
    CreateTags := fun _ _ => none
    TerminateInstances := fun _ _ => none }

/-- As `okProvider`, but the tagging call fails. -/
def tagFailProvider : AwsProvider :=
  { okProvider with CreateTags := fun _ _ => some (.external "tagging refused") }

/-- As `okProvider`, but the launch returns two instances. -/
def twoProvider : AwsProvider :=
  { okProvider with RunInstances := fun _ _ => .ok [⟨"i-1"⟩, ⟨"i-2"⟩] }

/-- A provider whose image has a boot volume only and whose launch returns a
single instance with the empty identifier. -/
def emptyIdProvider : AwsProvider :=
  { okProvider with GetImage := fun _ => .ok bootImage
                    RunInstances := fun _ _ => .ok [⟨""⟩] }

/-- As `okProvider`, but every attach-volume call fails. -/
def attachFailProvider : AwsProvider :=
  { okProvider with AttachVolume := fun _ _ _ _ => some (.external "volume in use") }

/-- A registry with an older entry under `i-1`. -/
def staleRegistry : Registry :=
  fun k => if k = "i-1" then some ⟨"i-1", "old", .Stopped, .AWS, "ami-9", 7⟩ else none

/-- A retryer with three retries. -/
def sampleRetryer : DefaultRetryer := { NumMaxRetries := 3 }

/-- A response with status 503 (a throttle condition) at the given attempt. -/
def throttledRequest (retryCount : Int) : Request :=
  { StatusCode := 503, RetryCount := retryCount, IsErrorRetryable := false,
    IsErrorThrottle := false }

/-- A response with status 500 (not a throttle condition) at the given attempt. -/
def serverErrorRequest (retryCount : Int) : Request :=
  { StatusCode := 500, RetryCount := retryCount, IsErrorRetryable := false,
    IsErrorThrottle := false }

/-- A response with status 400 whose error is flagged as a throttle error but
not as retryable. -/
def throttleFlagRequest : Request :=
  { StatusCode := 400, RetryCount := 0, IsErrorRetryable := false, IsErrorThrottle := true }

/-- A response with status 404 and no flag set. -/
def notFoundRequest : Request :=
  { StatusCode := 404, RetryCount := 0, IsErrorRetryable := false, IsErrorThrottle := false }

/-! ## Lemmas -/

theorem lookup_none_iff_not_key (m : GoMap) (k : String) :
    m.lookup k = none ↔ k ∉ m.map Prod.fst := by
  induction m with
  | nil => simp
  | cons e rest ih =>
    obtain ⟨k', v⟩ := e
    by_cases h : k = k'
    · subst h; simp
    · have h' : (k == k') = false := by simpa using h
      simp [List.lookup_cons, h', ih, h]

theorem verifyLoop_snd (logger : Logger) (image : Image) (m : GoMap) (ds : List DeviceMapping) :
    (MissingMount ds m ∧ (verifyMntsInput.loop logger image m ds).2 = some validationError) ∨
    (¬ MissingMount ds m ∧ (verifyMntsInput.loop logger image m ds).2 = none) := by
  induction ds with
  | nil => right; simp [verifyMntsInput.loop, MissingMount]
  | cons d rest ih =>
    unfold verifyMntsInput.loop
    by_cases hroot : d.MountPoint = "/"
    · simp only [hroot, if_true]
      rcases ih with ⟨hm, he⟩ | ⟨hm, he⟩
      · left
        obtain ⟨d', hd', h1, h2⟩ := hm
        exact ⟨⟨d', List.mem_cons_of_mem _ hd', h1, h2⟩, he⟩
      · right
        refine ⟨?_, he⟩
        rintro ⟨d', hd', h1, h2⟩
        rcases List.mem_cons.mp hd' with rfl | hin
        · exact h1 hroot
        · exact hm ⟨d', hin, h1, h2⟩
    · simp only [hroot, if_false]
      cases hl : m.lookup d.MountPoint with
      | some v =>
        have hk : ¬ d.MountPoint ∉ m.map Prod.fst := by
          rw [← lookup_none_iff_not_key, hl]; simp
        rcases ih with ⟨hm, he⟩ | ⟨hm, he⟩
        · left
          obtain ⟨d', hd', h1, h2⟩ := hm
          exact ⟨⟨d', List.mem_cons_of_mem _ hd', h1, h2⟩, he⟩
        · right
          refine ⟨?_, he⟩
          rintro ⟨d', hd', h1, h2⟩
          rcases List.mem_cons.mp hd' with rfl | hin
          · exact hk h2
          · exact hm ⟨d', hin, h1, h2⟩
      | none =>
        have hk : d.MountPoint ∉ m.map Prod.fst := by
          rw [← lookup_none_iff_not_key, hl]
        left
        exact ⟨⟨d, List.mem_cons_self _ _, hroot, hk⟩, rfl⟩

theorem attachLoop_cases (p : AwsProvider) (id : String) (m : GoMap) (s : St) :
    ∃ lg evs, (RunInstance.attachLoop p id m s).2 = ⟨lg, s.trace ++ evs, s.instances, s.instanceId⟩ ∧
      (((RunInstance.attachLoop p id m s).1 = none ∧ evs = attachEvents id m) ∨
       (∃ pre mp v post e, m = pre ++ (mp, v) :: post ∧
          (RunInstance.attachLoop p id m s).1 = some (lxerrors.New "attaching volume to instance" (some e)) ∧
          evs = attachEvents id pre ++ [.attachVolume v id mp (some e)])) := by
  induction m generalizing s with
  | nil => exact ⟨s.logger, [], by simp [RunInstance.attachLoop], Or.inl ⟨rfl, rfl⟩⟩
  | cons e rest ih =>
    obtain ⟨mp, v⟩ := e
    unfold RunInstance.attachLoop
    cases hout : p.AttachVolume s.trace v id mp with
    | some err =>
      exact ⟨_, [.attachVolume v id mp (some err)], rfl,
        Or.inr ⟨[], mp, v, rest, err, rfl, rfl, rfl⟩⟩
    | none =>
      simp only
      obtain ⟨lg, evs, h1, h2⟩ := ih
        { s with logger := s.logger.write .debug [("volume-id", .str v)]
                    ("attaching volume " ++ v ++ " to intance " ++ id),
                 trace := s.trace ++ [.attachVolume v id mp none] }
      refine ⟨lg, .attachVolume v id mp none :: evs, ?_, ?_⟩
      · rw [h1]; simp
      · rcases h2 with ⟨hr, hev⟩ | ⟨pre, mp', v', post, e, hm, hr, hev⟩
        · exact Or.inl ⟨hr, by simp [hev, attachEvents]⟩
        · exact Or.inr ⟨(mp, v) :: pre, mp', v', post, e, by simp [hm], hr,
            by simp [hev, attachEvents]⟩

theorem attachVolumes_cases (p : AwsProvider) (m : GoMap) (s : St) :
    ∃ lg evs, (RunInstance.attachVolumes p m s).2 = ⟨lg, s.trace ++ evs, s.instances, s.instanceId⟩ ∧
      AttachOutcome m s.instanceId (RunInstance.attachVolumes p m s).1 evs := by
  unfold AttachOutcome RunInstance.attachVolumes
  by_cases hlen : m.length > 0
  · have hne : m ≠ [] := by intro h; simp [h] at hlen
    simp only [hlen, if_true]
    cases hstop : p.StopInstance s.trace s.instanceId with
    | some err =>
      exact ⟨_, [.stopInstance s.instanceId (some err)], rfl,
        Or.inr (Or.inr (Or.inl ⟨hne, err, rfl, rfl⟩))⟩
    | none =>
      simp only
      obtain ⟨lg, evs, h1, h2⟩ := attachLoop_cases p s.instanceId m
        { s with logger := s.logger.write .debug [] "stopping instance for volume attach",
                 trace := s.trace ++ [.stopInstance s.instanceId none] }
      rcases hloop : RunInstance.attachLoop p s.instanceId m
        { s with logger := s.logger.write .debug [] "stopping instance for volume attach",
                 trace := s.trace ++ [.stopInstance s.instanceId none] } with ⟨r, s2⟩
      rw [hloop] at h1 h2
      simp only at h1 h2
      subst h1
      rcases h2 with ⟨hr, hev⟩ | ⟨pre, mp, v, post, e, hm, hr, hev⟩
      · subst hr
        simp only
        cases hstart : p.StartInstance (s.trace ++ [.stopInstance s.instanceId none] ++ evs)
            s.instanceId with
        | some err =>
          exact ⟨lg, .stopInstance s.instanceId none :: evs ++ [.startInstance s.instanceId (some err)],
            by simp, Or.inr (Or.inr (Or.inr (Or.inr ⟨hne, err, rfl, by simp [hev]⟩)))⟩
        | none =>
          exact ⟨lg, .stopInstance s.instanceId none :: evs ++ [.startInstance s.instanceId none],
            by simp, Or.inr (Or.inl ⟨hne, rfl, by simp [hev]⟩)⟩
      · subst hr
        exact ⟨lg, .stopInstance s.instanceId none :: evs, by simp,
          Or.inr (Or.inr (Or.inr (Or.inl ⟨hne, pre, mp, v, post, e, hm, rfl, by simp [hev]⟩)))⟩
  · have he : m = [] := by
      cases m with
      | nil => rfl
      | cons a b => simp at hlen
    rw [if_neg hlen]
    exact ⟨s.logger, [], by simp, Or.inl ⟨he, rfl, rfl⟩⟩

theorem deferred_instances (p : AwsProvider) (err : Option Err) (s : St) :
    (RunInstance.deferred p err s).instances = s.instances := by
  unfold RunInstance.deferred
  cases err with
  | none => rfl
  | some e =>
    simp only
    split <;> rfl

theorem deferred_trace (p : AwsProvider) (err : Option Err) (s : St) :
    (RunInstance.deferred p err s).trace =
      match err with
      | none => s.trace
      | some _ => s.trace ++ cleanupEvents p s.trace s.instanceId := by
  unfold RunInstance.deferred cleanupEvents
  cases err with
  | none => rfl
  | some e =>
    simp only
    split <;> simp

theorem cleanupEvents_empty (p : AwsProvider) (tr : List Event) :
    cleanupEvents p tr "" = [] := by
  simp [cleanupEvents]

theorem RunInstance_paths (p : AwsProvider) (name imageId : String) (m env : GoMap)
    (R : Registry) : RunPaths p name imageId m env R (RunInstance p name imageId m env R) := by
  unfold RunPaths
  cases hget : p.GetImage imageId with
  | error err =>
    left
    refine ⟨err, rfl, ?_, ?_, ?_⟩ <;>
      simp [RunInstance, RunInstance.body, hget, deferred_instances, deferred_trace, cleanupEvents_empty, errOf]
  | ok image =>
    right
    rcases hv : verifyMntsInput (Logger.write [] .info
        [("image-id", .str imageId), ("mounts", .strMap m), ("env", .strMap env)]
        ("running instance " ++ name)) image m with ⟨lg1, r1⟩
    have hvs := verifyLoop_snd (Logger.write [] .info
        [("image-id", .str imageId), ("mounts", .strMap m), ("env", .strMap env)]
        ("running instance " ++ name)) image m image.DeviceMappings
    have hv2 : (verifyMntsInput.loop (Logger.write [] .info
        [("image-id", .str imageId), ("mounts", .strMap m), ("env", .strMap env)]
        ("running instance " ++ name)) image m image.DeviceMappings).2 = r1 := by
      have := congrArg Prod.snd hv
      simpa [verifyMntsInput] using this
    rw [hv2] at hvs
    rcases hvs with ⟨hmiss, hr1⟩ | ⟨hmiss, hr1⟩
    · subst hr1
      left
      refine ⟨image, rfl, hmiss, ?_, ?_, ?_⟩ <;>
        simp [RunInstance, RunInstance.body, hget, hv, deferred_instances, deferred_trace, cleanupEvents_empty, errOf]
    · subst hr1
      right
      cases hmar : p.jsonMarshal env with
      | error err =>
        left
        refine ⟨image, err, rfl, hmiss, rfl, ?_, ?_, ?_⟩ <;>
          simp [RunInstance, RunInstance.body, hget, hv, hmar, deferred_instances, deferred_trace, cleanupEvents_empty, errOf]
      | ok envData =>
        right
        refine ⟨image, envData, rfl, hmiss, rfl, ?_⟩
        unfold PostLaunch
        simp only
        cases hl : p.RunInstances [] (launchInput p image envData) with
        | error err =>
          left
          have hl2 := hl
          unfold launchInput at hl2
          refine ⟨err, rfl, ?_, ?_, ?_⟩ <;>
            simp [RunInstance, RunInstance.body, hget, hv, hmar, hl2, deferred_instances, deferred_trace, cleanupEvents_empty, errOf,
              launchInput]
        | ok insts =>
          right
          have hl2 := hl
          unfold launchInput at hl2
          match insts, hl, hl2 with
          | [], hl, hl2 =>
            left
            refine ⟨rfl, ?_, ?_, ?_⟩ <;>
              simp [RunInstance, RunInstance.body, hget, hv, hmar, hl2, deferred_instances, deferred_trace, cleanupEvents_empty, errOf,
                launchInput, mismatchError]
          | a :: b :: rest, hl, hl2 =>
            right; left
            refine ⟨a, b, rest, rfl, ?_, ?_, ?_⟩ <;>
              simp [RunInstance, RunInstance.body, hget, hv, hmar, hl2, deferred_instances, deferred_trace, cleanupEvents_empty, errOf,
                launchInput, mismatchError]
          | [a], hl, hl2 =>
            right; right
            obtain ⟨lg2, evs, h1, h2⟩ := attachVolumes_cases p m
              ⟨lg1, [.runInstances (launchInput p image envData) (.ok [a])], R, a.InstanceId⟩
            rcases hav : RunInstance.attachVolumes p m
              ⟨lg1, [.runInstances (launchInput p image envData) (.ok [a])], R, a.InstanceId⟩
              with ⟨r, s2⟩
            rw [hav] at h1 h2
            simp only at h1 h2
            subst h1
            have hav2 := hav
            unfold launchInput at hav2
            cases r with
            | some err =>
              left
              refine ⟨a, evs, err, rfl, h2, ?_, ?_, ?_⟩ <;>
                simp [RunInstance, RunInstance.body, hget, hv, hmar, hl2, hav2, deferred_instances,
                  deferred_trace, errOf, launchInput]
            | none =>
              right
              cases htag : p.CreateTags
                  (.runInstances (launchInput p image envData) (.ok [a]) :: evs)
                  (tagsInput a.InstanceId name) with
              | some err =>
                left
                have htag2 := htag
                unfold launchInput tagsInput at htag2
                refine ⟨a, evs, err, rfl, h2, htag, ?_, ?_, ?_⟩ <;>
                  simp [RunInstance, RunInstance.body, hget, hv, hmar, hl2, hav2, deferred_instances,
                    deferred_trace, errOf, launchInput, RunInstance.tagAndRegister, htag2, tagsInput]
              | none =>
                right
                have htag2 := htag
                unfold launchInput tagsInput at htag2
                refine ⟨a, evs, rfl, h2, htag, ?_, ?_, ?_⟩ <;>
                  simp [RunInstance, RunInstance.body, hget, hv, hmar, hl2, hav2, deferred_instances,
                    deferred_trace, errOf, launchInput, RunInstance.tagAndRegister, htag2, tagsInput,
                    newInstance, ModifyInstances]

theorem attachEvents_terminated (id : String) (m : GoMap) :
    (attachEvents id m).filterMap Event.terminated = [] := by
  induction m with
  | nil => rfl
  | cons e rest ih => simp [attachEvents, Event.terminated]

theorem attachEvents_not_launch (id : String) (m : GoMap) (input : RunInstancesInput)
    (out : Except Err (List Ec2Instance)) : Event.runInstances input out ∉ attachEvents id m := by
  simp [attachEvents]

theorem AttachOutcome_terminated {m : GoMap} {id : String} {r : Option Err} {evs : List Event}
    (h : AttachOutcome m id r evs) : evs.filterMap Event.terminated = [] := by
  rcases h with ⟨_, _, rfl⟩ | ⟨_, _, rfl⟩ | ⟨_, _, _, rfl⟩ | ⟨_, _, _, _, _, _, _, _, rfl⟩ |
    ⟨_, _, _, rfl⟩ <;>
    simp [Event.terminated, attachEvents_terminated]

theorem AttachOutcome_not_launch {m : GoMap} {id : String} {r : Option Err} {evs : List Event}
    (h : AttachOutcome m id r evs) (input : RunInstancesInput)
    (out : Except Err (List Ec2Instance)) : Event.runInstances input out ∉ evs := by
  rcases h with ⟨_, _, rfl⟩ | ⟨_, _, rfl⟩ | ⟨_, _, _, rfl⟩ | ⟨_, _, _, _, _, _, _, _, rfl⟩ |
    ⟨_, _, _, rfl⟩ <;>
    simp [attachEvents_not_launch]

theorem cleanupEvents_terminated (p : AwsProvider) (tr : List Event) (id : String)
    (h : id ≠ "") : (cleanupEvents p tr id).filterMap Event.terminated = [[id]] := by
  simp [cleanupEvents, h, Event.terminated]

theorem cleanupEvents_not_launch (p : AwsProvider) (tr : List Event) (id : String)
    (input : RunInstancesInput) (out : Except Err (List Ec2Instance)) :
    Event.runInstances input out ∉ cleanupEvents p tr id := by
  unfold cleanupEvents
  split <;> simp

theorem PostLaunch_mem {p : AwsProvider} {name : String} {image : Image} {m : GoMap}
    {R : Registry} {input : RunInstancesInput} {out : Outcome}
    (h : PostLaunch p name image m R input out) (input' : RunInstancesInput)
    (out' : Except Err (List Ec2Instance))
    (hmem : Event.runInstances input' out' ∈ out.trace) :
    input' = input ∧ out' = p.RunInstances [] input := by
  unfold PostLaunch at h
  simp only at h
  have hc := fun tr id => cleanupEvents_not_launch p tr id input' out'
  rcases h with ⟨err, hl, _, ht, _⟩ | ⟨hl, _, ht, _⟩ | ⟨a, b, rest', hl, _, ht, _⟩ |
    ⟨a, evs, err, hl, hatt, _, ht, _⟩ | ⟨a, evs, err, hl, hatt, _, _, ht, _⟩ |
    ⟨a, evs, hl, hatt, _, _, ht, _⟩
  · simpa [ht] using hmem
  · simpa [ht] using hmem
  · simpa [ht, hc] using hmem
  · have hn := AttachOutcome_not_launch hatt input' out'
    simpa [ht, hc, hn] using hmem
  · have hn := AttachOutcome_not_launch hatt input' out'
    simpa [ht, hc, hn] using hmem
  · have hn := AttachOutcome_not_launch hatt input' out'
    simpa [ht, hn] using hmem

theorem launch_of_mem (p : AwsProvider) (name imageId : String) (m env : GoMap) (R : Registry)
    (input : RunInstancesInput) (out0 : Except Err (List Ec2Instance))
    (hmem : Event.runInstances input out0 ∈ (RunInstance p name imageId m env R).trace) :
    ∃ image envData, p.GetImage imageId = .ok image ∧ ¬ MissingMount image.DeviceMappings m ∧
      p.jsonMarshal env = .ok envData ∧ input = launchInput p image envData ∧
      p.RunInstances [] input = out0 ∧
      PostLaunch p name image m R input (RunInstance p name imageId m env R) := by
  have hp := RunInstance_paths p name imageId m env R
  rcases hp with ⟨_, _, _, ht, _⟩ | ⟨_, _, _, _, ht, _⟩ | ⟨_, _, _, _, _, _, ht, _⟩ |
    ⟨image, envData, hg, hmiss, hmar, hpost⟩
  · simp [ht] at hmem
  · simp [ht] at hmem
  · simp [ht] at hmem
  · obtain ⟨h1, h2⟩ := PostLaunch_mem hpost input out0 hmem
    subst h1
    exact ⟨image, envData, hg, hmiss, hmar, rfl, h2.symm, hpost⟩

theorem error_keeps_registry (p : AwsProvider) (name imageId : String) (m env : GoMap)
    (R : Registry) (e : Err) (herr : (RunInstance p name imageId m env R).result = .error e) :
    (RunInstance p name imageId m env R).instances = R := by
  have hp := RunInstance_paths p name imageId m env R
  rcases hp with ⟨_, _, _, _, hi⟩ | ⟨_, _, _, _, _, hi⟩ | ⟨_, _, _, _, _, _, _, hi⟩ |
    ⟨image, envData, hg, hmiss, hmar, hpost⟩
  · exact hi
  · exact hi
  · exact hi
  · unfold PostLaunch at hpost
    simp only at hpost
    rcases hpost with ⟨_, _, _, _, hi⟩ | ⟨_, _, _, hi⟩ | ⟨_, _, _, _, _, _, hi⟩ |
      ⟨_, _, _, _, _, _, _, hi⟩ | ⟨_, _, _, _, _, _, _, _, hi⟩ |
      ⟨_, _, _, _, _, hres, _, _⟩
    · exact hi
    · exact hi
    · exact hi
    · exact hi
    · exact hi
    · rw [hres] at herr
      simp at herr

theorem verify_snd (logger : Logger) (image : Image) (m : GoMap) :
    (MissingMount image.DeviceMappings m ∧
      (verifyMntsInput logger image m).2 = some validationError) ∨
    (¬ MissingMount image.DeviceMappings m ∧ (verifyMntsInput logger image m).2 = none) :=
  verifyLoop_snd logger image m image.DeviceMappings

theorem attachEvents_not_failed (id : String) (m : GoMap) :
    ∀ ev ∈ attachEvents id m, ev.failed = false := by
  intro ev hev
  simp only [attachEvents, List.mem_map] at hev
  obtain ⟨e, _, rfl⟩ := hev
  rfl

theorem AttachOutcome_ok_not_failed {m : GoMap} {id : String} {evs : List Event}
    (h : AttachOutcome m id none evs) : ∀ ev ∈ evs, ev.failed = false := by
  rcases h with ⟨_, _, rfl⟩ | ⟨_, _, rfl⟩ | ⟨_, _, h, _⟩ | ⟨_, _, _, _, _, _, _, h, _⟩ |
    ⟨_, _, h, _⟩
  · simp
  · intro ev hev
    simp only [List.mem_cons, List.mem_append, List.not_mem_nil, or_false] at hev
    rcases hev with (rfl | hev) | rfl
    · rfl
    · exact attachEvents_not_failed _ _ ev hev
    · rfl
  · simp at h
  · simp at h
  · simp at h

theorem AttachOutcome_error_wrapped {m : GoMap} {id : String} {err : Err} {evs : List Event}
    (h : AttachOutcome m id (some err) evs) : ∃ msg cause, err = .wrapped msg cause := by
  rcases h with ⟨_, h, _⟩ | ⟨_, h, _⟩ | ⟨_, e, h, _⟩ | ⟨_, _, _, _, _, e, _, h, _⟩ |
    ⟨_, e, h, _⟩
  · simp at h
  · simp at h
  · exact ⟨_, e, by simpa [lxerrors.New] using h⟩
  · exact ⟨_, e, by simpa [lxerrors.New] using h⟩
  · exact ⟨_, e, by simpa [lxerrors.New] using h⟩

theorem attachLoop_terminate_irrelevant (p : AwsProvider)
    (t : List Event → TerminateInstancesInput → Option Err) (id : String) (m : GoMap) (s : St) :
    RunInstance.attachLoop { p with TerminateInstances := t } id m s =
      RunInstance.attachLoop p id m s := by
  induction m generalizing s with
  | nil => rfl
  | cons e rest ih =>
    obtain ⟨mp, v⟩ := e
    unfold RunInstance.attachLoop
    simp only
    cases p.AttachVolume s.trace v id mp with
    | some err => rfl
    | none => exact ih _

theorem body_terminate_irrelevant (p : AwsProvider)
    (t : List Event → TerminateInstancesInput → Option Err) (name imageId : String)
    (m env : GoMap) (s : St) :
    RunInstance.body { p with TerminateInstances := t } name imageId m env s =
      RunInstance.body p name imageId m env s := by
  have hav : ∀ s', RunInstance.attachVolumes { p with TerminateInstances := t } m s' =
      RunInstance.attachVolumes p m s' := by
    intro s'
    unfold RunInstance.attachVolumes
    simp only [attachLoop_terminate_irrelevant]
  have htag : ∀ image s', RunInstance.tagAndRegister { p with TerminateInstances := t } name image s' =
      RunInstance.tagAndRegister p name image s' := by
    intro image s'
    rfl
  unfold RunInstance.body
  simp only [hav, htag]

theorem verifyLoop_first (logger : Logger) (image : Image) (m : GoMap)
    (ds : List DeviceMapping) (h : (verifyMntsInput.loop logger image m ds).2 ≠ none) :
    ∃ mp, firstMissing ds m = some mp ∧
      verifyMntsInput.loop logger image m ds =
        (logger.write .error [("required-device-mappings", .mappings image.DeviceMappings)]
            ("requied mount point missing: " ++ mp),
          some (lxerrors.New "required mount point missing from input" none)) := by
  induction ds with
  | nil => simp [verifyMntsInput.loop] at h
  | cons d rest ih =>
    unfold verifyMntsInput.loop at h ⊢
    by_cases hroot : d.MountPoint = "/"
    · simp only [hroot, if_true] at h ⊢
      obtain ⟨mp, h1, h2⟩ := ih h
      refine ⟨mp, ?_, h2⟩
      simpa [firstMissing, List.find?_cons, hroot] using h1
    · simp only [hroot, if_false] at h ⊢
      cases hl : m.lookup d.MountPoint with
      | some v =>
        simp only [hl] at h ⊢
        obtain ⟨mp, h1, h2⟩ := ih h
        refine ⟨mp, ?_, h2⟩
        simpa [firstMissing, List.find?_cons, hroot, hl] using h1
      | none =>
        refine ⟨d.MountPoint, ?_, rfl⟩
        simp [firstMissing, List.find?_cons, hroot, hl]

theorem cleanupEvents_all_terminate (p : AwsProvider) (tr : List Event) (id : String) :
    ∀ e ∈ cleanupEvents p tr id, e.terminated ≠ none := by
  unfold cleanupEvents
  split <;> simp [Event.terminated]

theorem cleanupEvents_not_attachPhase (p : AwsProvider) (tr : List Event) (id : String) :
    ∀ e ∈ cleanupEvents p tr id, e.isAttachPhase = false := by
  unfold cleanupEvents
  split <;> simp [Event.isAttachPhase]

theorem cleanupEvents_tagged (p : AwsProvider) (tr : List Event) (id : String) :
    (cleanupEvents p tr id).filterMap Event.tagged = [] := by
  unfold cleanupEvents
  split <;> simp [Event.tagged]

theorem attachEvents_tagged (id : String) (m : GoMap) :
    (attachEvents id m).filterMap Event.tagged = [] := by
  induction m with
  | nil => rfl
  | cons e rest ih => simp [attachEvents, Event.tagged]

theorem AttachOutcome_tagged {m : GoMap} {id : String} {r : Option Err} {evs : List Event}
    (h : AttachOutcome m id r evs) : evs.filterMap Event.tagged = [] := by
  rcases h with ⟨_, _, rfl⟩ | ⟨_, _, rfl⟩ | ⟨_, _, _, rfl⟩ | ⟨_, _, _, _, _, _, _, _, rfl⟩ |
    ⟨_, _, _, rfl⟩ <;>
    simp [Event.tagged, attachEvents_tagged]

/-- A failed sequence: the failing call is the last one, every earlier call
succeeded, and the error returned wraps the error of the failing call. -/
theorem AttachOutcome_error_last {m : GoMap} {id : String} {err : Err} {evs : List Event}
    (h : AttachOutcome m id (some err) evs) :
    ∃ init last cause, evs = init ++ [last] ∧ (∀ e ∈ init, e.failed = false) ∧
      last.isAttachPhase = true ∧ last.outcomeError = some cause ∧
      err = lxerrors.New (attachPhaseMessage last) (some cause) := by
  rcases h with ⟨_, h, _⟩ | ⟨_, h, _⟩ | ⟨_, e, h, rfl⟩ | ⟨_, pre, mp, v, _, e, _, h, rfl⟩ |
    ⟨_, e, h, rfl⟩
  · simp at h
  · simp at h
  · simp only [Option.some.injEq] at h
    exact ⟨[], _, e, rfl, by simp, rfl, rfl, h⟩
  · simp only [Option.some.injEq] at h
    refine ⟨.stopInstance id none :: attachEvents id pre, _, e, rfl, ?_, rfl, rfl, h⟩
    intro ev hev
    rcases List.mem_cons.mp hev with rfl | hin
    · rfl
    · exact attachEvents_not_failed _ _ ev hin
  · simp only [Option.some.injEq] at h
    refine ⟨.stopInstance id none :: attachEvents id m, _, e, rfl, ?_, rfl, rfl, h⟩
    intro ev hev
    rcases List.mem_cons.mp hev with rfl | hin
    · rfl
    · exact attachEvents_not_failed _ _ ev hin

theorem failed_of_attachPhase_error {ev : Event} {cause : Err}
    (h1 : ev.isAttachPhase = true) (h2 : ev.outcomeError = some cause) : ev.failed = true := by
  cases ev <;> simp_all [Event.isAttachPhase, Event.outcomeError, Event.failed]

theorem AttachOutcome_attachPhase {m : GoMap} {id : String} {r : Option Err} {evs : List Event}
    (h : AttachOutcome m id r evs) : ∀ e ∈ evs, e.isAttachPhase = true := by
  have hatt : ∀ (m' : GoMap), ∀ e ∈ attachEvents id m', e.isAttachPhase = true := by
    intro m' e he
    simp only [attachEvents, List.mem_map] at he
    obtain ⟨_, _, rfl⟩ := he
    rfl
  rcases h with ⟨_, _, rfl⟩ | ⟨_, _, rfl⟩ | ⟨_, _, _, rfl⟩ | ⟨_, _, _, _, _, _, _, _, rfl⟩ |
    ⟨_, _, _, rfl⟩
  · simp
  · intro e he
    simp only [List.mem_cons, List.mem_append, List.not_mem_nil, or_false] at he
    rcases he with (rfl | he) | rfl
    · rfl
    · exact hatt _ e he
    · rfl
  · intro e he
    simp only [List.mem_cons, List.not_mem_nil, or_false] at he
    subst he
    rfl
  · intro e he
    simp only [List.mem_cons, List.mem_append, List.not_mem_nil, or_false] at he
    rcases he with (rfl | he) | rfl
    · rfl
    · exact hatt _ e he
    · rfl
  · intro e he
    simp only [List.mem_cons, List.mem_append, List.not_mem_nil, or_false] at he
    rcases he with (rfl | he) | rfl
    · rfl
    · exact hatt _ e he
    · rfl

theorem wrapInt64_eq (x : Int) (h1 : -9223372036854775808 ≤ x) (h2 : x < 9223372036854775808) :
    wrapInt64 x = x := by
  unfold wrapInt64
  omega

theorem delay_small (k : Nat) (hk : k ≤ 13) (j b : Int) (hj0 : 0 ≤ j) (hj : j ≤ 29)
    (hb : b = 30 ∨ b = 1000) :
    wrapInt64 (wrapInt64 (wrapInt64 (shiftLeftOne k * wrapInt64 (j + b))) * Millisecond) =
      2 ^ k * (j + b) * Millisecond := by
  have h64 : k < 64 := by omega
  have hpow : (2 : Int) ^ k ≤ 8192 := by
    have : (2 : Int) ^ k ≤ 2 ^ 13 := pow_le_pow_right₀ (by norm_num) hk
    simpa using this
  have hpos : (0 : Int) < 2 ^ k := by positivity
  have hs : shiftLeftOne k = 2 ^ k := by
    unfold shiftLeftOne
    rw [if_pos h64]
    exact wrapInt64_eq _ (by omega) (by omega)
  have hjb : wrapInt64 (j + b) = j + b := wrapInt64_eq _ (by omega) (by omega)
  have hb0 : 0 ≤ j + b := by omega
  have hb1 : j + b ≤ 1029 := by omega
  have hprod0 : 0 ≤ (2 : Int) ^ k * (j + b) := by positivity
  have hprod1 : (2 : Int) ^ k * (j + b) ≤ 8192 * 1029 := by
    exact mul_le_mul hpow hb1 hb0 (by norm_num)
  rw [hs, hjb]
  rw [wrapInt64_eq ((2 : Int) ^ k * (j + b)) (by omega) (by omega)]
  rw [wrapInt64_eq ((2 : Int) ^ k * (j + b)) (by omega) (by omega)]
  unfold Millisecond
  exact wrapInt64_eq _ (by omega) (by omega)

theorem RetryRules_eq (d : DefaultRetryer) (r : Request) (j : Int)
    (hn : 0 ≤ r.RetryCount) (hj0 : 0 ≤ j) (hj : j ≤ 29) :
    d.RetryRules r j = 2 ^ usedExponent d r * (j + usedBase d r) * Millisecond := by
  unfold DefaultRetryer.RetryRules usedExponent usedBase
  simp only
  by_cases h13 : r.RetryCount > 13
  · simp only [h13, if_true]
    have : toUint 13 = 13 := by decide
    rw [this]
    cases d.shouldThrottle r <;> exact delay_small 13 (by norm_num) j _ hj0 hj (by simp)
  · simp only [h13, if_false]
    cases hth : d.shouldThrottle r
    · simp only [Bool.false_and, Bool.false_eq_true, if_false, false_and]
      have hu : toUint r.RetryCount = r.RetryCount.toNat := by
        unfold toUint
        congr 1
        omega
      rw [hu]
      exact delay_small _ (by omega) j _ hj0 hj (by simp)
    · by_cases h8 : r.RetryCount > 8
      · simp only [h8, decide_True, Bool.and_self, if_true, and_self]
        have : toUint 8 = 8 := by decide
        rw [this]
        exact delay_small 8 (by norm_num) j _ hj0 hj (by simp)
      · simp only [h8, decide_False, Bool.and_false, Bool.false_eq_true, if_false, and_false]
        have hu : toUint r.RetryCount = r.RetryCount.toNat := by
          unfold toUint
          congr 1
          omega
        rw [hu]
        exact delay_small _ (by omega) j _ hj0 hj (by simp)

theorem shouldThrottle_retryCount (d : DefaultRetryer) (r : Request) (n : Int) :
    d.shouldThrottle { r with RetryCount := n } = d.shouldThrottle r := rfl

theorem usedExponent_within_cap (d : DefaultRetryer) (r : Request) (n : Int) (hn : 0 ≤ n)
    (hcap : n ≤ if d.shouldThrottle r = true then 8 else 13) :
    usedExponent d { r with RetryCount := n } = n.toNat := by
  unfold usedExponent
  rw [shouldThrottle_retryCount]
  simp only
  cases hth : d.shouldThrottle r
  · simp only [hth, Bool.false_eq_true, if_false] at hcap
    have h13 : ¬ n > 13 := by omega
    simp [h13]
  · simp only [hth, if_true] at hcap
    have h13 : ¬ n > 13 := by omega
    have h8 : ¬ n > 8 := by omega
    simp [h13, h8]

theorem usedBase_bounds (d : DefaultRetryer) (r : Request) :
    usedBase d r = 30 ∨ usedBase d r = 1000 := by
  unfold usedBase
  split
  · exact Or.inr rfl
  · exact Or.inl rfl

/-! ## The claims -/

/-- C1: if the launch returned at least one instance, the first with a
non-empty identifier `id`, and the run ends with an error, then the trace holds
exactly one terminate call, and it is for `id`. -/
theorem C1_terminate_exactly_once (p : AwsProvider) (name imageId : String) (m env : GoMap)
    (R : Registry) (input : RunInstancesInput) (i : Ec2Instance) (rest : List Ec2Instance)
    (e : Err)
    (hlaunch : Event.runInstances input (.ok (i :: rest)) ∈
      (RunInstance p name imageId m env R).trace)
    (hid : i.InstanceId ≠ "")
    (herr : (RunInstance p name imageId m env R).result = .error e) :
    (RunInstance p name imageId m env R).trace.filterMap Event.terminated =
      [[i.InstanceId]] := by
  have hp := RunInstance_paths p name imageId m env R
  generalize RunInstance p name imageId m env R = out at hp hlaunch herr
  rcases hp with ⟨_, _, _, ht, _⟩ | ⟨_, _, _, _, ht, _⟩ | ⟨_, _, _, _, _, _, ht, _⟩ |
    ⟨image, envData, _, _, _, hpost⟩
  · simp [ht] at hlaunch
  · simp [ht] at hlaunch
  · simp [ht] at hlaunch
  · unfold PostLaunch at hpost
    simp only at hpost
    rcases hpost with ⟨err, hl, _, ht, _⟩ | ⟨hl, _, ht, _⟩ | ⟨a, b, rest', hl, _, ht, _⟩ |
      ⟨a, evs, err, hl, hatt, _, ht, _⟩ | ⟨a, evs, err, hl, hatt, _, _, ht, _⟩ |
      ⟨a, evs, hl, hatt, _, hres, _, _⟩
    · simp [ht, hl] at hlaunch
    · simp [ht, hl] at hlaunch
    · rw [ht, hl] at hlaunch
      simp only [List.mem_cons, Event.runInstances.injEq, Except.ok.injEq, List.cons.injEq] at hlaunch
      rcases hlaunch with ⟨_, rfl, _⟩ | hin
      · rw [ht]
        simp [Event.terminated, cleanupEvents_terminated _ _ _ hid]
      · exact absurd hin (cleanupEvents_not_launch _ _ _ _ _)
    · rw [ht, hl] at hlaunch
      simp only [List.mem_cons, List.mem_append, Event.runInstances.injEq, Except.ok.injEq,
        List.cons.injEq] at hlaunch
      rcases hlaunch with (⟨_, rfl, _⟩ | hin) | hin
      · rw [ht]
        simp [Event.terminated, cleanupEvents_terminated _ _ _ hid, AttachOutcome_terminated hatt]
      · exact absurd hin (AttachOutcome_not_launch hatt _ _)
      · exact absurd hin (cleanupEvents_not_launch _ _ _ _ _)
    · rw [ht, hl] at hlaunch
      simp only [List.mem_cons, List.mem_append, Event.runInstances.injEq, Except.ok.injEq,
        List.cons.injEq, reduceCtorEq, false_or] at hlaunch
      rcases hlaunch with (⟨_, rfl, _⟩ | hin) | hin
      · rw [ht]
        simp [Event.terminated, cleanupEvents_terminated _ _ _ hid, AttachOutcome_terminated hatt]
      · exact absurd hin (AttachOutcome_not_launch hatt _ _)
      · exact absurd hin (cleanupEvents_not_launch _ _ _ _ _)
    · rw [hres] at herr
      simp at herr

/-- Scenario D: the tagging call fails after the launch of `i-1`. -/
theorem C1_terminate_exactly_once_witness :
    (RunInstance tagFailProvider "web" "ami-1" dataMounts [] emptyRegistry).trace.filterMap
      Event.terminated = [["i-1"]] :=
  C1_terminate_exactly_once tagFailProvider "web" "ami-1" dataMounts [] emptyRegistry
    ⟨"ami-1", 1, 1, "e30="⟩ ⟨"i-1"⟩ []
    (.wrapped "tagging snapshot, image, and volume" (.external "tagging refused"))
    (by decide) (by decide) (by decide)

/-- C2: on a registry without an entry for the launched identifier, the
registry afterwards holds an entry for it exactly when `RunInstance` returned
without error; every error return leaves the registry unchanged;
`RunInstance` returns without error exactly when the image lookup, the mount
validation, the encoding, the launch (with exactly one result) and every call
issued afterwards succeeded; and the record it then returns is the registry
entry under its identifier. -/
theorem C2_registered_iff_success (p : AwsProvider) (name imageId : String) (m env : GoMap)
    (R : Registry) (logger : Logger) :
    (∀ input i rest,
      Event.runInstances input (.ok (i :: rest)) ∈ (RunInstance p name imageId m env R).trace →
      R i.InstanceId = none →
      (((RunInstance p name imageId m env R).instances i.InstanceId).isSome ↔
        ∃ inst, (RunInstance p name imageId m env R).result = .ok inst)) ∧
    (∀ e, (RunInstance p name imageId m env R).result = .error e →
      (RunInstance p name imageId m env R).instances = R) ∧
    ((∃ inst, (RunInstance p name imageId m env R).result = .ok inst) ↔
      ∃ image envData a, p.GetImage imageId = .ok image ∧
        (verifyMntsInput logger image m).2 = none ∧
        p.jsonMarshal env = .ok envData ∧
        p.RunInstances [] (launchInput p image envData) = .ok [a] ∧
        ∀ ev ∈ (RunInstance p name imageId m env R).trace, ev.failed = false) ∧
    (∀ inst, (RunInstance p name imageId m env R).result = .ok inst →
      (RunInstance p name imageId m env R).instances inst.Id = some inst) := by
  refine ⟨?_, fun e he => error_keeps_registry p name imageId m env R e he, ⟨?_, ?_⟩, ?_⟩
  · intro input i rest hmem hR
    obtain ⟨image, envData, _, _, _, _, hl0, hpost⟩ :=
      launch_of_mem p name imageId m env R input _ hmem
    cases hres : (RunInstance p name imageId m env R).result with
    | error e =>
      rw [error_keeps_registry p name imageId m env R e hres, hR]
      simp
    | ok inst =>
      unfold PostLaunch at hpost
      simp only [hres, hl0] at hpost
      rcases hpost with ⟨_, _, h, _⟩ | ⟨_, h, _⟩ | ⟨_, _, _, _, h, _⟩ |
        ⟨_, _, _, _, _, h, _⟩ | ⟨_, _, _, _, _, _, h, _⟩ |
        ⟨a, evs, hl, _, _, _, _, hi⟩
      · simp at h
      · simp at h
      · simp at h
      · simp at h
      · simp at h
      · simp only [Except.ok.injEq, List.cons.injEq] at hl
        obtain ⟨rfl, _⟩ := hl
        rw [hi]
        simp [Registry.set]
  · rintro ⟨inst, hres⟩
    have hp := RunInstance_paths p name imageId m env R
    rcases hp with ⟨_, _, h, _⟩ | ⟨_, _, _, h, _⟩ | ⟨_, _, _, _, _, h, _⟩ |
      ⟨image, envData, hg, hmiss, hmar, hpost⟩
    · rw [hres] at h; simp at h
    · rw [hres] at h; simp at h
    · rw [hres] at h; simp at h
    · unfold PostLaunch at hpost
      simp only [hres] at hpost
      rcases hpost with ⟨_, _, h, _⟩ | ⟨_, h, _⟩ | ⟨_, _, _, _, h, _⟩ |
        ⟨_, _, _, _, _, h, _⟩ | ⟨_, _, _, _, _, _, h, _⟩ |
        ⟨a, evs, hl, hatt, _, _, ht, _⟩
      · simp at h
      · simp at h
      · simp at h
      · simp at h
      · simp at h
      · refine ⟨image, envData, a, hg, ?_, hmar, hl, ?_⟩
        · rcases verify_snd logger image m with ⟨h1, _⟩ | ⟨_, h2⟩
          · exact absurd h1 hmiss
          · exact h2
        · intro ev hev
          rw [ht, hl] at hev
          simp only [List.mem_cons, List.mem_append, List.not_mem_nil, or_false] at hev
          rcases hev with (rfl | hev) | rfl
          · rfl
          · exact AttachOutcome_ok_not_failed hatt ev hev
          · rfl
  · rintro ⟨image, envData, a, hg, hv, hmar, hl, hok⟩
    have hnm : ¬ MissingMount image.DeviceMappings m := by
      rcases verify_snd logger image m with ⟨_, h2⟩ | ⟨h1, _⟩
      · rw [hv] at h2
        simp at h2
      · exact h1
    have hp := RunInstance_paths p name imageId m env R
    rcases hp with ⟨_, hg', _⟩ | ⟨image', hg', hmiss, _⟩ | ⟨_, _, _, _, hmar', _⟩ |
      ⟨image', envData', hg', _, hmar', hpost⟩
    · rw [hg] at hg'
      simp at hg'
    · rw [hg] at hg'
      simp only [Except.ok.injEq] at hg'
      subst hg'
      exact absurd hmiss hnm
    · rw [hmar] at hmar'
      simp at hmar'
    · rw [hg] at hg'
      rw [hmar] at hmar'
      simp only [Except.ok.injEq] at hg' hmar'
      subst hg' hmar'
      unfold PostLaunch at hpost
      simp only [hl] at hpost
      rcases hpost with ⟨_, h, _⟩ | ⟨h, _⟩ | ⟨_, _, _, h, _⟩ |
        ⟨a', evs, err, _, hatt, _, ht, _⟩ | ⟨a', evs, err, _, _, _, _, ht, _⟩ |
        ⟨a', evs, _, _, _, hres, _, _⟩
      · simp at h
      · simp at h
      · simp at h
      · exfalso
        obtain ⟨init, last, cause, hevs, _, hph, hcause, _⟩ := AttachOutcome_error_last hatt
        have hf := failed_of_attachPhase_error hph hcause
        have := hok last (by rw [ht, hevs]; simp)
        rw [hf] at this
        simp at this
      · exfalso
        have := hok (.createTags (tagsInput a'.InstanceId name) (some err))
          (by rw [ht]; simp)
        simp [Event.failed] at this
      · exact ⟨_, hres⟩
  · intro inst hres
    have hp := RunInstance_paths p name imageId m env R
    rcases hp with ⟨_, _, h, _⟩ | ⟨_, _, _, h, _⟩ | ⟨_, _, _, _, _, h, _⟩ |
      ⟨image, envData, hg, hmiss, hmar, hpost⟩
    · rw [hres] at h; simp at h
    · rw [hres] at h; simp at h
    · rw [hres] at h; simp at h
    · unfold PostLaunch at hpost
      simp only [hres] at hpost
      rcases hpost with ⟨_, _, h, _⟩ | ⟨_, h, _⟩ | ⟨_, _, _, _, h, _⟩ |
        ⟨_, _, _, _, _, h, _⟩ | ⟨_, _, _, _, _, _, h, _⟩ |
        ⟨a, evs, _, _, _, hinst, _, hi⟩
      · simp at h
      · simp at h
      · simp at h
      · simp at h
      · simp at h
      · simp only [Except.ok.injEq] at hinst
        subst hinst
        rw [hi]
        simp [Registry.set, newInstance]

/-- Scenario A started on the empty registry: every step succeeds, so the run
returns the record of `i-1`, and the registry, which had no entry for `i-1`,
holds that record afterwards. -/
theorem C2_registered_iff_success_witness :
    emptyRegistry "i-1" = none ∧
    (∃ inst, (RunInstance okProvider "web" "ami-1" dataMounts [] emptyRegistry).result =
      .ok inst) ∧
    ((RunInstance okProvider "web" "ami-1" dataMounts [] emptyRegistry).instances "i-1").isSome ∧
    (RunInstance okProvider "web" "ami-1" dataMounts [] emptyRegistry).instances
        (⟨"i-1", "web", .Pending, .AWS, "ami-1", 0⟩ : Instance).Id =
      some ⟨"i-1", "web", .Pending, .AWS, "ami-1", 0⟩ :=
  have h := C2_registered_iff_success okProvider "web" "ami-1" dataMounts [] emptyRegistry []
  have hok : ∃ inst, (RunInstance okProvider "web" "ami-1" dataMounts [] emptyRegistry).result =
      .ok inst :=
    h.2.2.1.mpr ⟨scenarioImage, "\x7b\x7d", ⟨"i-1"⟩, rfl, by decide, rfl, rfl, by decide⟩
  ⟨rfl, hok,
    (h.1 ⟨"ami-1", 1, 1, "e30="⟩ ⟨"i-1"⟩ [] (by decide) rfl).mpr hok,
    h.2.2.2 ⟨"i-1", "web", .Pending, .AWS, "ami-1", 0⟩ (by decide)⟩

/-- C3: `verifyMntsInput` returns an error exactly when some device mapping of
the image other than the root mapping has a mount point that is not a key of
the mount specification; and when the image lookup succeeds, `RunInstance`
fails with the validation error exactly in that case. -/
theorem C3_validation_iff_missing (logger : Logger) (image : Image) (m : GoMap)
    (p : AwsProvider) (name imageId : String) (env : GoMap) (R : Registry) :
    ((verifyMntsInput logger image m).2 ≠ none ↔
      ∃ d ∈ image.DeviceMappings, d.MountPoint ≠ "/" ∧ d.MountPoint ∉ m.map Prod.fst) ∧
    (p.GetImage imageId = .ok image →
      ((RunInstance p name imageId m env R).result =
          .error (lxerrors.New "required mount point missing from input" none) ↔
        ∃ d ∈ image.DeviceMappings, d.MountPoint ≠ "/" ∧ d.MountPoint ∉ m.map Prod.fst)) := by
  constructor
  · rcases verify_snd logger image m with ⟨h1, h2⟩ | ⟨h1, h2⟩
    · rw [h2]
      exact ⟨fun _ => h1, fun _ => by simp⟩
    · rw [h2]
      exact ⟨fun h => absurd rfl h, fun h => absurd h h1⟩
  · intro hget
    have hp := RunInstance_paths p name imageId m env R
    rcases hp with ⟨_, hg, _⟩ | ⟨image', hg, hmiss, hres, _⟩ |
      ⟨image', _, hg, hmiss, _, hres, _⟩ | ⟨image', envData, hg, hmiss, hmar, hpost⟩
    · rw [hget] at hg; simp at hg
    · rw [hget] at hg
      simp only [Except.ok.injEq] at hg
      subst hg
      rw [hres]
      exact ⟨fun _ => hmiss, fun _ => rfl⟩
    · rw [hget] at hg
      simp only [Except.ok.injEq] at hg
      subst hg
      rw [hres]
      exact ⟨fun h => by simp [lxerrors.New] at h, fun h => absurd h hmiss⟩
    · rw [hget] at hg
      simp only [Except.ok.injEq] at hg
      subst hg
      refine ⟨fun h => ?_, fun h => absurd h hmiss⟩
      exfalso
      unfold PostLaunch at hpost
      simp only [h] at hpost
      rcases hpost with ⟨_, _, h', _⟩ | ⟨_, h', _⟩ | ⟨_, _, _, _, h', _⟩ |
        ⟨_, _, err, _, hatt, h', _⟩ | ⟨_, _, _, _, _, _, h', _⟩ |
        ⟨_, _, _, _, _, h', _⟩
      · simp [lxerrors.New] at h'
      · simp [lxerrors.New, mismatchError] at h'
      · simp [lxerrors.New, mismatchError] at h'
      · obtain ⟨msg, cause, hw⟩ := AttachOutcome_error_wrapped hatt
        rw [hw] at h'
        simp [lxerrors.New] at h'
      · simp [lxerrors.New] at h'
      · simp at h'

/-- Scenario B: the image requires `/data`, the mount specification is empty. -/
theorem C3_validation_iff_missing_witness :
    ((RunInstance okProvider "web" "ami-1" [] [] emptyRegistry).result =
        .error (lxerrors.New "required mount point missing from input" none) ↔
      ∃ d ∈ scenarioImage.DeviceMappings, d.MountPoint ≠ "/" ∧
        d.MountPoint ∉ ([] : GoMap).map Prod.fst) :=
  (C3_validation_iff_missing [] scenarioImage [] okProvider "web" "ami-1" [] emptyRegistry).2 rfl

/-- C4: when the image lookup or the mount validation fails, no control-plane
call is issued and the registry is left unchanged. -/
theorem C4_no_call_before_validation (p : AwsProvider) (name imageId : String) (m env : GoMap)
    (R : Registry)
    (h : (∃ err, p.GetImage imageId = .error err) ∨
      (∃ image logger, p.GetImage imageId = .ok image ∧
        (verifyMntsInput logger image m).2 ≠ none)) :
    (RunInstance p name imageId m env R).trace = [] ∧
    (RunInstance p name imageId m env R).instances = R := by
  have hp := RunInstance_paths p name imageId m env R
  rcases hp with ⟨_, _, _, ht, hi⟩ | ⟨_, _, _, _, ht, hi⟩ | ⟨_, _, _, _, _, _, ht, hi⟩ |
    ⟨image', envData, hg, hmiss, hmar, hpost⟩
  · exact ⟨ht, hi⟩
  · exact ⟨ht, hi⟩
  · exact ⟨ht, hi⟩
  · exfalso
    rcases h with ⟨err, he⟩ | ⟨image, logger, hg', hv⟩
    · rw [hg] at he; simp at he
    · rw [hg] at hg'
      simp only [Except.ok.injEq] at hg'
      subst hg'
      rcases verify_snd logger image' m with ⟨h1, _⟩ | ⟨_, h2⟩
      · exact hmiss h1
      · exact hv h2

/-- Scenario B: validation fails, nothing is called. -/
theorem C4_no_call_before_validation_witness :
    (RunInstance okProvider "web" "ami-1" [] [] emptyRegistry).trace = [] ∧
    (RunInstance okProvider "web" "ami-1" [] [] emptyRegistry).instances = emptyRegistry :=
  C4_no_call_before_validation okProvider "web" "ami-1" [] [] emptyRegistry
    (Or.inr ⟨scenarioImage, [], rfl, by decide⟩)

/-- C5: when the launch call succeeds but returns no instance or at least two,
`RunInstance` returns the error "expected 1 instance to be created" (and so no
`Instance`), and the registry is unchanged. -/
theorem C5_launch_count_mismatch (p : AwsProvider) (name imageId : String) (m env : GoMap)
    (R : Registry) (input : RunInstancesInput) (insts : List Ec2Instance)
    (hlaunch : Event.runInstances input (.ok insts) ∈
      (RunInstance p name imageId m env R).trace)
    (hcount : insts.length = 0 ∨ 2 ≤ insts.length) :
    (RunInstance p name imageId m env R).result =
      .error (lxerrors.New "expected 1 instance to be created" none) ∧
    (RunInstance p name imageId m env R).instances = R := by
  obtain ⟨image, envData, _, _, _, _, hl0, hpost⟩ :=
    launch_of_mem p name imageId m env R input _ hlaunch
  unfold PostLaunch at hpost
  simp only [hl0] at hpost
  rcases hpost with ⟨_, h, _⟩ | ⟨_, hres, _, hi⟩ | ⟨_, _, _, _, hres, _, hi⟩ |
    ⟨_, _, _, h, _⟩ | ⟨_, _, _, h, _⟩ | ⟨_, _, h, _⟩
  · simp at h
  · exact ⟨hres, hi⟩
  · exact ⟨hres, hi⟩
  · simp only [Except.ok.injEq] at h
    subst h
    simp at hcount
  · simp only [Except.ok.injEq] at h
    subst h
    simp at hcount
  · simp only [Except.ok.injEq] at h
    subst h
    simp at hcount

/-- Scenario C: the launch returns two instances. -/
theorem C5_launch_count_mismatch_witness :
    (RunInstance twoProvider "web" "ami-1" dataMounts [] emptyRegistry).result =
      .error (lxerrors.New "expected 1 instance to be created" none) ∧
    (RunInstance twoProvider "web" "ami-1" dataMounts [] emptyRegistry).instances =
      emptyRegistry :=
  C5_launch_count_mismatch twoProvider "web" "ami-1" dataMounts [] emptyRegistry
    ⟨"ami-1", 1, 1, "e30="⟩ [⟨"i-1"⟩, ⟨"i-2"⟩] (by decide) (by decide)

/-- C6 fails at a launch that returns `i-1` and `i-2`: the run ends with the
count-mismatch error, the only terminate call is for `i-1`, and no terminate
call names `i-2`. -/
theorem C6_counterexample :
    Event.runInstances ⟨"ami-1", 1, 1, "e30="⟩ (.ok [⟨"i-1"⟩, ⟨"i-2"⟩]) ∈
      (RunInstance twoProvider "web" "ami-1" dataMounts [] emptyRegistry).trace ∧
    (RunInstance twoProvider "web" "ami-1" dataMounts [] emptyRegistry).trace.filterMap
      Event.terminated = [["i-1"]] ∧
    ¬ ∃ ids ∈ (RunInstance twoProvider "web" "ami-1" dataMounts [] emptyRegistry).trace.filterMap
      Event.terminated, "i-2" ∈ ids := by
  decide

/-- C6, amended: when the launch returns exactly two instances with non-empty
identifiers, `RunInstance` fails with the count-mismatch error and the trace
holds exactly one terminate call, for the first of the two identifiers. -/
theorem C6_two_instances_one_terminate (p : AwsProvider) (name imageId : String)
    (m env : GoMap) (R : Registry) (input : RunInstancesInput) (a b : Ec2Instance)
    (hlaunch : Event.runInstances input (.ok [a, b]) ∈
      (RunInstance p name imageId m env R).trace)
    (ha : a.InstanceId ≠ "") (_hb : b.InstanceId ≠ "") :
    (RunInstance p name imageId m env R).result =
      .error (lxerrors.New "expected 1 instance to be created" none) ∧
    (RunInstance p name imageId m env R).trace.filterMap Event.terminated =
      [[a.InstanceId]] := by
  obtain ⟨image, envData, _, _, _, _, hl0, hpost⟩ :=
    launch_of_mem p name imageId m env R input _ hlaunch
  unfold PostLaunch at hpost
  simp only [hl0] at hpost
  rcases hpost with ⟨_, h, _⟩ | ⟨h, _⟩ | ⟨a', b', rest, h, hres, ht, _⟩ |
    ⟨_, _, _, h, _⟩ | ⟨_, _, _, h, _⟩ | ⟨_, _, h, _⟩
  · simp at h
  · simp at h
  · simp only [Except.ok.injEq, List.cons.injEq] at h
    obtain ⟨rfl, rfl, _⟩ := h
    refine ⟨hres, ?_⟩
    rw [ht]
    simp [Event.terminated, cleanupEvents_terminated _ _ _ ha]
  · simp at h
  · simp at h
  · simp at h

/-- Scenario C: the launch returns `i-1` and `i-2`. -/
theorem C6_two_instances_one_terminate_witness :
    (RunInstance twoProvider "web" "ami-1" dataMounts [] emptyRegistry).result =
      .error (lxerrors.New "expected 1 instance to be created" none) ∧
    (RunInstance twoProvider "web" "ami-1" dataMounts [] emptyRegistry).trace.filterMap
      Event.terminated = [["i-1"]] :=
  C6_two_instances_one_terminate twoProvider "web" "ami-1" dataMounts [] emptyRegistry
    ⟨"ami-1", 1, 1, "e30="⟩ ⟨"i-1"⟩ ⟨"i-2"⟩ (by decide) (by decide) (by decide)

/-- C7 fails when the launch returns a single instance whose identifier is
empty and the tagging call succeeds: the record is registered under the empty
identifier. -/
theorem C7_counterexample :
    emptyRegistry "" = none ∧
    (RunInstance emptyIdProvider "web" "ami-0" [] [] emptyRegistry).result =
      .ok ⟨"", "web", .Pending, .AWS, "ami-0", 0⟩ ∧
    (RunInstance emptyIdProvider "web" "ami-0" [] [] emptyRegistry).instances "" =
      some ⟨"", "web", .Pending, .AWS, "ami-0", 0⟩ := by
  decide

/-- C7, amended: in every run in which the launch returns no empty first
identifier, or which ends with an error, the registry entry under the empty
identifier is the same after the run as before it, and a returned instance has
a non-empty `Id`. -/
theorem C7_empty_id_not_registered (p : AwsProvider) (name imageId : String)
    (m env : GoMap) (R : Registry)
    (h : (∀ ev ∈ (RunInstance p name imageId m env R).trace, ev.launchedId ≠ some "") ∨
      ∃ e, (RunInstance p name imageId m env R).result = .error e) :
    (RunInstance p name imageId m env R).instances "" = R "" ∧
    ∀ inst, (RunInstance p name imageId m env R).result = .ok inst → inst.Id ≠ "" := by
  cases hres : (RunInstance p name imageId m env R).result with
  | error e =>
    rw [error_keeps_registry p name imageId m env R e hres]
    exact ⟨rfl, fun inst hi => by simp at hi⟩
  | ok inst =>
    rcases h with h | ⟨e, he⟩
    · have hp := RunInstance_paths p name imageId m env R
      rcases hp with ⟨_, _, h', _⟩ | ⟨_, _, _, h', _⟩ | ⟨_, _, _, _, _, h', _⟩ |
        ⟨image, envData, hg, hmiss, hmar, hpost⟩
      · rw [hres] at h'; simp at h'
      · rw [hres] at h'; simp at h'
      · rw [hres] at h'; simp at h'
      · unfold PostLaunch at hpost
        simp only [hres] at hpost
        rcases hpost with ⟨_, _, h', _⟩ | ⟨_, h', _⟩ | ⟨_, _, _, _, h', _⟩ |
          ⟨_, _, _, _, _, h', _⟩ | ⟨_, _, _, _, _, _, h', _⟩ |
          ⟨a, evs, hl, hatt, _, hinst, ht, hi⟩
        · simp at h'
        · simp at h'
        · simp at h'
        · simp at h'
        · simp at h'
        · have hne : a.InstanceId ≠ "" := by
            have := h (.runInstances (launchInput p image envData) (.ok [a]))
              (by rw [ht, hl]; simp)
            simpa [Event.launchedId] using this
          refine ⟨?_, ?_⟩
          · rw [hi]
            simp [Registry.set, Ne.symm hne]
          · intro inst' hinst'
            simp only [Except.ok.injEq] at hinst hinst'
            subst hinst'
            rw [hinst]
            exact hne
    · rw [hres] at he
      simp at he

/-- Scenario A: the launch returns `i-1`. -/
theorem C7_empty_id_not_registered_witness :
    (RunInstance okProvider "web" "ami-1" dataMounts [] emptyRegistry).instances "" =
      emptyRegistry "" ∧
    ∀ inst, (RunInstance okProvider "web" "ami-1" dataMounts [] emptyRegistry).result = .ok inst →
      inst.Id ≠ "" :=
  C7_empty_id_not_registered okProvider "web" "ami-1" dataMounts [] emptyRegistry
    (Or.inl (by decide))

/-- C8: two runs that differ only in the outcome of the terminate call return
the same result (the same error, when there is one) and leave the same
registry. -/
theorem C8_terminate_outcome_not_observed (p : AwsProvider)
    (t1 t2 : List Event → TerminateInstancesInput → Option Err) (name imageId : String)
    (m env : GoMap) (R : Registry) :
    (RunInstance { p with TerminateInstances := t1 } name imageId m env R).result =
      (RunInstance { p with TerminateInstances := t2 } name imageId m env R).result ∧
    (RunInstance { p with TerminateInstances := t1 } name imageId m env R).instances =
      (RunInstance { p with TerminateInstances := t2 } name imageId m env R).instances := by
  constructor
  · show (RunInstance.body _ name imageId m env _).1 = (RunInstance.body _ name imageId m env _).1
    rw [body_terminate_irrelevant p t1, body_terminate_irrelevant p t2]
  · show (RunInstance.deferred _ _ (RunInstance.body _ name imageId m env _).2).instances =
      (RunInstance.deferred _ _ (RunInstance.body _ name imageId m env _).2).instances
    rw [deferred_instances, deferred_instances, body_terminate_irrelevant p t1,
      body_terminate_irrelevant p t2]

/-- C9 fails for the image with mappings `/` and `/data` and the empty mount
specification: the first missing mount point is `/data`, and the error
returned does not contain that text. -/
theorem C9_counterexample :
    firstMissing scenarioImage.DeviceMappings [] = some "/data" ∧
    (verifyMntsInput [] scenarioImage []).2 =
      some (lxerrors.New "required mount point missing from input" none) ∧
    ¬ (lxerrors.New "required mount point missing from input" none).mentions "/data" := by
  decide

/-- C9, amended: when validation fails, `verifyMntsInput` returns the fixed
error "required mount point missing from input" without a cause, and so does
`RunInstance`; the mount point of the first non-root device mapping absent from
the mount specification is named in the error-level log line that
`verifyMntsInput` writes before it returns. -/
theorem C9_missing_mount_point_logged (logger : Logger) (image : Image) (m : GoMap)
    (h : (verifyMntsInput logger image m).2 ≠ none) :
    (∃ mp, firstMissing image.DeviceMappings m = some mp ∧
      verifyMntsInput logger image m =
        (logger.write .error [("required-device-mappings", .mappings image.DeviceMappings)]
            ("requied mount point missing: " ++ mp),
          some (lxerrors.New "required mount point missing from input" none))) ∧
    (∀ (p : AwsProvider) (name imageId : String) (env : GoMap) (R : Registry),
      p.GetImage imageId = .ok image →
      (RunInstance p name imageId m env R).result =
        .error (lxerrors.New "required mount point missing from input" none)) := by
  refine ⟨verifyLoop_first logger image m image.DeviceMappings h, ?_⟩
  intro p name imageId env R hget
  have hmiss : MissingMount image.DeviceMappings m := by
    rcases verify_snd logger image m with ⟨h1, _⟩ | ⟨_, h2⟩
    · exact h1
    · exact absurd h2 h
  have hp := RunInstance_paths p name imageId m env R
  rcases hp with ⟨_, hg, _⟩ | ⟨_, _, _, hres, _⟩ | ⟨image', _, hg, hm, _⟩ |
    ⟨image', _, hg, hm, _⟩
  · rw [hget] at hg; simp at hg
  · exact hres
  · rw [hget] at hg
    simp only [Except.ok.injEq] at hg
    subst hg
    exact absurd hmiss hm
  · rw [hget] at hg
    simp only [Except.ok.injEq] at hg
    subst hg
    exact absurd hmiss hm

/-- Scenario B: `/data` is missing; the log line names it, the error does not. -/
theorem C9_missing_mount_point_logged_witness :
    (∃ mp, firstMissing scenarioImage.DeviceMappings [] = some mp ∧
      verifyMntsInput [] scenarioImage [] =
        (Logger.write [] .error
            [("required-device-mappings", .mappings scenarioImage.DeviceMappings)]
            ("requied mount point missing: " ++ mp),
          some (lxerrors.New "required mount point missing from input" none))) ∧
    (∀ (p : AwsProvider) (name imageId : String) (env : GoMap) (R : Registry),
      p.GetImage imageId = .ok scenarioImage →
      (RunInstance p name imageId [] env R).result =
        .error (lxerrors.New "required mount point missing from input" none)) :=
  C9_missing_mount_point_logged [] scenarioImage [] (by decide)

/-- C10: in a successful run the trace is the launch, then, for a non-empty
mount specification, one stop of the launched instance, one attach call
`(volumeId, id, mountPoint)` per entry of the mount specification and one
start, then the tagging call; for an empty mount specification the launch is
followed by the tagging call directly.  The attach calls of the trace are
exactly those of the entries. -/
theorem C10_attach_sequence (p : AwsProvider) (name imageId : String) (m env : GoMap)
    (R : Registry) (inst : Instance)
    (h : (RunInstance p name imageId m env R).result = .ok inst) :
    (∃ input tags, (RunInstance p name imageId m env R).trace =
      .runInstances input (.ok [⟨inst.Id⟩]) ::
        (if m = [] then []
         else .stopInstance inst.Id none ::
           m.map (fun e => Event.attachVolume e.2 inst.Id e.1 none) ++
           [.startInstance inst.Id none]) ++
        [.createTags tags none]) ∧
    (RunInstance p name imageId m env R).trace.filterMap Event.attached =
      m.map (fun e => (e.2, inst.Id, e.1)) := by
  have hp := RunInstance_paths p name imageId m env R
  rcases hp with ⟨_, _, h', _⟩ | ⟨_, _, _, h', _⟩ | ⟨_, _, _, _, _, h', _⟩ |
    ⟨image, envData, hg, hmiss, hmar, hpost⟩
  · rw [h] at h'; simp at h'
  · rw [h] at h'; simp at h'
  · rw [h] at h'; simp at h'
  · unfold PostLaunch at hpost
    simp only [h] at hpost
    rcases hpost with ⟨_, _, h', _⟩ | ⟨_, h', _⟩ | ⟨_, _, _, _, h', _⟩ |
      ⟨_, _, _, _, _, h', _⟩ | ⟨_, _, _, _, _, _, h', _⟩ |
      ⟨a, evs, hl, hatt, _, hinst, ht, _⟩
    · simp at h'
    · simp at h'
    · simp at h'
    · simp at h'
    · simp at h'
    · simp only [Except.ok.injEq] at hinst
      have hid : inst.Id = a.InstanceId := by rw [hinst]; rfl
      have hevs : evs = if m = [] then []
          else .stopInstance inst.Id none ::
            m.map (fun e => Event.attachVolume e.2 inst.Id e.1 none) ++
            [.startInstance inst.Id none] := by
        rcases hatt with ⟨hm, _, he⟩ | ⟨hm, _, he⟩ | ⟨_, _, h', _⟩ |
          ⟨_, _, _, _, _, _, _, h', _⟩ | ⟨_, _, h', _⟩
        · simp [hm, he]
        · simp [hm, he, hid, attachEvents]
        · simp at h'
        · simp at h'
        · simp at h'
      have ha : a = ⟨inst.Id⟩ := by rw [hid]
      refine ⟨⟨launchInput p image envData, tagsInput a.InstanceId name, ?_⟩, ?_⟩
      · rw [ht, hl, hevs, ← ha]
      · rw [ht, hevs]
        by_cases hm : m = []
        · simp [hm, Event.attached]
        · simp only [hm, if_false, List.filterMap_cons, List.filterMap_append, Event.attached,
            List.filterMap_map, List.filterMap_nil, List.append_nil, List.nil_append]
          exact congrFun (List.filterMap_eq_map (fun e : String × String => (e.2, inst.Id, e.1))) m

/-- Scenario A: one volume is attached between a stop and a start. -/
theorem C10_attach_sequence_witness :
    (∃ input tags, (RunInstance okProvider "web" "ami-1" dataMounts [] emptyRegistry).trace =
      .runInstances input (.ok [⟨"i-1"⟩]) ::
        (if dataMounts = [] then []
         else .stopInstance "i-1" none ::
           dataMounts.map (fun e => Event.attachVolume e.2 "i-1" e.1 none) ++
           [.startInstance "i-1" none]) ++
        [.createTags tags none]) ∧
    (RunInstance okProvider "web" "ami-1" dataMounts [] emptyRegistry).trace.filterMap
        Event.attached =
      dataMounts.map (fun e => (e.2, "i-1", e.1)) :=
  C10_attach_sequence okProvider "web" "ami-1" dataMounts [] emptyRegistry
    ⟨"i-1", "web", .Pending, .AWS, "ami-1", 0⟩ (by decide)

/-- C11: when a stop, attach-volume or start call fails, it is the last call
of the run apart from the terminate call of the cleanup: every call before it
succeeded, every call after it is a terminate call (so no further stop,
attach-volume, start or create-tags call, and no detach, which `RunInstance`
never issues), and `RunInstance` returns an error wrapping the error of that
call. -/
theorem C11_attach_failure_aborts (p : AwsProvider) (name imageId : String) (m env : GoMap)
    (R : Registry) (ev : Event)
    (hmem : ev ∈ (RunInstance p name imageId m env R).trace)
    (hphase : ev.isAttachPhase = true) (hfail : ev.failed = true) :
    ∃ pre post cause, (RunInstance p name imageId m env R).trace = pre ++ ev :: post ∧
      (∀ e ∈ pre, e.failed = false) ∧
      (∀ e ∈ post, e.terminated ≠ none ∧ e.isAttachPhase = false ∧ e.tagged = none) ∧
      ev.outcomeError = some cause ∧
      (RunInstance p name imageId m env R).result =
        .error (lxerrors.New (attachPhaseMessage ev) (some cause)) := by
  have hp := RunInstance_paths p name imageId m env R
  rcases hp with ⟨_, _, _, ht, _⟩ | ⟨_, _, _, _, ht, _⟩ | ⟨_, _, _, _, _, _, ht, _⟩ |
    ⟨image, envData, _, _, _, hpost⟩
  · simp [ht] at hmem
  · simp [ht] at hmem
  · simp [ht] at hmem
  · unfold PostLaunch at hpost
    simp only at hpost
    have hc := cleanupEvents_not_attachPhase p
    rcases hpost with ⟨err, hl, _, ht, _⟩ | ⟨hl, _, ht, _⟩ | ⟨a, b, rest', hl, _, ht, _⟩ |
      ⟨a, evs, err, hl, hatt, hres, ht, _⟩ | ⟨a, evs, err, hl, hatt, _, _, ht, _⟩ |
      ⟨a, evs, hl, hatt, _, _, ht, _⟩
    · rw [ht] at hmem
      simp only [List.mem_cons, List.not_mem_nil, or_false] at hmem
      subst hmem
      simp [Event.isAttachPhase] at hphase
    · rw [ht] at hmem
      simp only [List.mem_cons, List.not_mem_nil, or_false] at hmem
      subst hmem
      simp [Event.isAttachPhase] at hphase
    · rw [ht] at hmem
      rcases List.mem_cons.mp hmem with rfl | hin
      · simp [Event.isAttachPhase] at hphase
      · rw [hc _ _ ev hin] at hphase
        simp at hphase
    · obtain ⟨init, last, cause, hevs, hinit, _, hcause, herr⟩ := AttachOutcome_error_last hatt
      rw [ht, hevs] at hmem
      simp only [List.mem_cons, List.mem_append, List.not_mem_nil, or_false] at hmem
      rcases hmem with (rfl | hin | rfl) | hin
      · simp [Event.isAttachPhase] at hphase
      · rw [hinit ev hin] at hfail
        simp at hfail
      · refine ⟨.runInstances (launchInput p image envData)
            (p.RunInstances [] (launchInput p image envData)) :: init,
          cleanupEvents p (.runInstances (launchInput p image envData)
            (p.RunInstances [] (launchInput p image envData)) :: evs) a.InstanceId,
          cause, ?_, ?_, ?_, hcause, ?_⟩
        · rw [ht, hevs]
          simp
        · intro e he
          rcases List.mem_cons.mp he with rfl | hin
          · rw [hl]
            rfl
          · exact hinit e hin
        · intro e he
          have h1 := cleanupEvents_all_terminate p _ _ e he
          refine ⟨h1, hc _ _ e he, ?_⟩
          cases e <;> simp_all [Event.terminated, Event.tagged]
        · rw [hres, herr]
      · rw [hc _ _ ev hin] at hphase
        simp at hphase
    · rw [ht] at hmem
      simp only [List.mem_cons, List.mem_append] at hmem
      rcases hmem with (rfl | hin) | rfl | hin
      · simp [Event.isAttachPhase] at hphase
      · rw [AttachOutcome_ok_not_failed hatt ev hin] at hfail
        simp at hfail
      · simp [Event.isAttachPhase] at hphase
      · rw [hc _ _ ev hin] at hphase
        simp at hphase
    · rw [ht] at hmem
      simp only [List.mem_cons, List.mem_append, List.not_mem_nil, or_false] at hmem
      rcases hmem with (rfl | hin) | rfl
      · simp [Event.isAttachPhase] at hphase
      · rw [AttachOutcome_ok_not_failed hatt ev hin] at hfail
        simp at hfail
      · simp [Event.isAttachPhase] at hphase

/-- The attach-volume call fails after a successful stop. -/
theorem C11_attach_failure_aborts_witness :
    ∃ pre post cause,
      (RunInstance attachFailProvider "web" "ami-1" dataMounts [] emptyRegistry).trace =
        pre ++ Event.attachVolume "vol-1" "i-1" "/data" (some (.external "volume in use")) :: post ∧
      (∀ e ∈ pre, e.failed = false) ∧
      (∀ e ∈ post, e.terminated ≠ none ∧ e.isAttachPhase = false ∧ e.tagged = none) ∧
      (Event.attachVolume "vol-1" "i-1" "/data" (some (.external "volume in use"))).outcomeError =
        some cause ∧
      (RunInstance attachFailProvider "web" "ami-1" dataMounts [] emptyRegistry).result =
        .error (lxerrors.New (attachPhaseMessage
          (Event.attachVolume "vol-1" "i-1" "/data" (some (.external "volume in use"))))
          (some cause)) :=
  C11_attach_failure_aborts attachFailProvider "web" "ami-1" dataMounts [] emptyRegistry
    (.attachVolume "vol-1" "i-1" "/data" (some (.external "volume in use")))
    (by decide) rfl rfl

/-- C12: in a run that reaches the tagging step (the launch returned exactly
one instance, with identifier `id`, and no stop, attach-volume or start call
failed) exactly one create-tags call is issued; its only resource is `id`, its
tags are the pair `UNIK_INSTANCE_ID` / `id` and the pair `Name` / name; and if
the call fails `RunInstance` returns the tagging error wrapping its error. -/
theorem C12_single_tagging_call (p : AwsProvider) (name imageId : String) (m env : GoMap)
    (R : Registry) (input : RunInstancesInput) (a : Ec2Instance)
    (hlaunch : Event.runInstances input (.ok [a]) ∈
      (RunInstance p name imageId m env R).trace)
    (hattach : ∀ ev ∈ (RunInstance p name imageId m env R).trace,
      ev.isAttachPhase = true → ev.failed = false) :
    ∃ res, (RunInstance p name imageId m env R).trace.filterMap Event.tagged =
        [({ Resources := [a.InstanceId],
            Tags := [⟨UNIK_INSTANCE_ID, a.InstanceId⟩, ⟨"Name", name⟩] }, res)] ∧
      ∀ err, res = some err →
        (RunInstance p name imageId m env R).result =
          .error (lxerrors.New "tagging snapshot, image, and volume" (some err)) := by
  obtain ⟨image, envData, _, _, _, _, hl0, hpost⟩ :=
    launch_of_mem p name imageId m env R input _ hlaunch
  unfold PostLaunch at hpost
  simp only [hl0] at hpost
  rcases hpost with ⟨_, h, _⟩ | ⟨h, _⟩ | ⟨_, _, _, h, _⟩ |
    ⟨a', evs, err, hl, hatt, _, ht, _⟩ | ⟨a', evs, err, hl, hatt, _, hres, ht, _⟩ |
    ⟨a', evs, hl, hatt, _, _, ht, _⟩
  · simp at h
  · simp at h
  · simp at h
  · exfalso
    obtain ⟨init, last, cause, hevs, _, hph, hcause, _⟩ := AttachOutcome_error_last hatt
    have hf := failed_of_attachPhase_error hph hcause
    have := hattach last (by rw [ht, hevs]; simp) hph
    rw [hf] at this
    simp at this
  · simp only [Except.ok.injEq, List.cons.injEq, and_true] at hl
    subst hl
    refine ⟨some err, ?_, ?_⟩
    · rw [ht]
      simp [Event.tagged, AttachOutcome_tagged hatt, cleanupEvents_tagged, tagsInput]
    · intro err' he
      simp only [Option.some.injEq] at he
      subst he
      exact hres
  · simp only [Except.ok.injEq, List.cons.injEq, and_true] at hl
    subst hl
    refine ⟨none, ?_, ?_⟩
    · rw [ht]
      simp [Event.tagged, AttachOutcome_tagged hatt, tagsInput]
    · intro err' he
      simp at he

/-- Scenario D: the tagging call is issued once, for `i-1`, and fails. -/
theorem C12_single_tagging_call_witness :
    ∃ res, (RunInstance tagFailProvider "web" "ami-1" dataMounts [] emptyRegistry).trace.filterMap
        Event.tagged =
        [({ Resources := ["i-1"],
            Tags := [⟨UNIK_INSTANCE_ID, "i-1"⟩, ⟨"Name", "web"⟩] }, res)] ∧
      ∀ err, res = some err →
        (RunInstance tagFailProvider "web" "ami-1" dataMounts [] emptyRegistry).result =
          .error (lxerrors.New "tagging snapshot, image, and volume" (some err)) :=
  C12_single_tagging_call tagFailProvider "web" "ami-1" dataMounts [] emptyRegistry
    ⟨"ami-1", 1, 1, "e30="⟩ ⟨"i-1"⟩ (by decide) (by decide)

/-- C13: the `Instance` returned by a successful run has the identifier of the
single launched instance, the caller's name, state `Pending`, infrastructure
`AWS`, the identifier of the image that was looked up, and the time of
creation; the registry entry under its `Id` is this record. -/
theorem C13_returned_record (p : AwsProvider) (name imageId : String) (m env : GoMap)
    (R : Registry) (inst : Instance)
    (h : (RunInstance p name imageId m env R).result = .ok inst) :
    ∃ image input a, p.GetImage imageId = .ok image ∧
      Event.runInstances input (.ok [a]) ∈ (RunInstance p name imageId m env R).trace ∧
      inst.Id = a.InstanceId ∧ inst.Name = name ∧ inst.State = .Pending ∧
      inst.Infrastructure = .AWS ∧ inst.ImageId = image.Id ∧ inst.Created = p.timeNow ∧
      (RunInstance p name imageId m env R).instances inst.Id = some inst := by
  have hp := RunInstance_paths p name imageId m env R
  rcases hp with ⟨_, _, h', _⟩ | ⟨_, _, _, h', _⟩ | ⟨_, _, _, _, _, h', _⟩ |
    ⟨image, envData, hg, hmiss, hmar, hpost⟩
  · rw [h] at h'; simp at h'
  · rw [h] at h'; simp at h'
  · rw [h] at h'; simp at h'
  · unfold PostLaunch at hpost
    simp only [h] at hpost
    rcases hpost with ⟨_, _, h', _⟩ | ⟨_, h', _⟩ | ⟨_, _, _, _, h', _⟩ |
      ⟨_, _, _, _, _, h', _⟩ | ⟨_, _, _, _, _, _, h', _⟩ |
      ⟨a, evs, hl, hatt, _, hinst, ht, hi⟩
    · simp at h'
    · simp at h'
    · simp at h'
    · simp at h'
    · simp at h'
    · simp only [Except.ok.injEq] at hinst
      subst hinst
      refine ⟨image, launchInput p image envData, a, hg, ?_, rfl, rfl, rfl, rfl, rfl, rfl, ?_⟩
      · rw [ht, hl]
        simp
      · rw [hi]
        simp [Registry.set, newInstance]

/-- Scenario A: the record returned for `i-1`. -/
theorem C13_returned_record_witness :
    ∃ image input a, okProvider.GetImage "ami-1" = .ok image ∧
      Event.runInstances input (.ok [a]) ∈
        (RunInstance okProvider "web" "ami-1" dataMounts [] emptyRegistry).trace ∧
      (⟨"i-1", "web", .Pending, .AWS, "ami-1", 0⟩ : Instance).Id = a.InstanceId ∧
      (⟨"i-1", "web", .Pending, .AWS, "ami-1", 0⟩ : Instance).Name = "web" ∧
      (⟨"i-1", "web", .Pending, .AWS, "ami-1", 0⟩ : Instance).State = .Pending ∧
      (⟨"i-1", "web", .Pending, .AWS, "ami-1", 0⟩ : Instance).Infrastructure = .AWS ∧
      (⟨"i-1", "web", .Pending, .AWS, "ami-1", 0⟩ : Instance).ImageId = image.Id ∧
      (⟨"i-1", "web", .Pending, .AWS, "ami-1", 0⟩ : Instance).Created = okProvider.timeNow ∧
      (RunInstance okProvider "web" "ami-1" dataMounts [] emptyRegistry).instances
        (⟨"i-1", "web", .Pending, .AWS, "ami-1", 0⟩ : Instance).Id =
        some ⟨"i-1", "web", .Pending, .AWS, "ami-1", 0⟩ :=
  C13_returned_record okProvider "web" "ami-1" dataMounts [] emptyRegistry
    ⟨"i-1", "web", .Pending, .AWS, "ami-1", 0⟩ (by decide)

/-- C14: after a successful run on the registry `R` the registry is `R` with
the key of the new record set to that record: the entry under that key is the
new record whatever `R` held there, every entry under another key is as in
`R`, and registering the same record again changes nothing. -/
theorem C14_registry_update (p : AwsProvider) (name imageId : String) (m env : GoMap)
    (R : Registry) (inst : Instance)
    (h : (RunInstance p name imageId m env R).result = .ok inst) :
    (RunInstance p name imageId m env R).instances = R.set inst.Id inst ∧
    (RunInstance p name imageId m env R).instances inst.Id = some inst ∧
    (∀ k, k ≠ inst.Id → (RunInstance p name imageId m env R).instances k = R k) ∧
    ModifyInstances (RunInstance p name imageId m env R).instances
        (fun instances => instances.set inst.Id inst) =
      (RunInstance p name imageId m env R).instances := by
  have hp := RunInstance_paths p name imageId m env R
  have key : (RunInstance p name imageId m env R).instances = R.set inst.Id inst := by
    rcases hp with ⟨_, _, h', _⟩ | ⟨_, _, _, h', _⟩ | ⟨_, _, _, _, _, h', _⟩ |
      ⟨image, envData, hg, hmiss, hmar, hpost⟩
    · rw [h] at h'; simp at h'
    · rw [h] at h'; simp at h'
    · rw [h] at h'; simp at h'
    · unfold PostLaunch at hpost
      simp only [h] at hpost
      rcases hpost with ⟨_, _, h', _⟩ | ⟨_, h', _⟩ | ⟨_, _, _, _, h', _⟩ |
        ⟨_, _, _, _, _, h', _⟩ | ⟨_, _, _, _, _, _, h', _⟩ |
        ⟨a, evs, hl, hatt, _, hinst, ht, hi⟩
      · simp at h'
      · simp at h'
      · simp at h'
      · simp at h'
      · simp at h'
      · simp only [Except.ok.injEq] at hinst
        subst hinst
        exact hi
  refine ⟨key, ?_, ?_, ?_⟩
  · rw [key]
    simp [Registry.set]
  · intro k hk
    rw [key]
    simp [Registry.set, hk]
  · rw [key]
    funext k
    simp only [ModifyInstances, Registry.set]
    split <;> rfl

/-- Scenario A on a registry that already holds an entry under `i-1`. -/
theorem C14_registry_update_witness :
    (RunInstance okProvider "web" "ami-1" dataMounts [] staleRegistry).instances =
      staleRegistry.set "i-1" ⟨"i-1", "web", .Pending, .AWS, "ami-1", 0⟩ ∧
    (RunInstance okProvider "web" "ami-1" dataMounts [] staleRegistry).instances "i-1" =
      some ⟨"i-1", "web", .Pending, .AWS, "ami-1", 0⟩ ∧
    (∀ k, k ≠ "i-1" →
      (RunInstance okProvider "web" "ami-1" dataMounts [] staleRegistry).instances k =
        staleRegistry k) ∧
    ModifyInstances (RunInstance okProvider "web" "ami-1" dataMounts [] staleRegistry).instances
        (fun instances => instances.set "i-1" ⟨"i-1", "web", .Pending, .AWS, "ami-1", 0⟩) =
      (RunInstance okProvider "web" "ami-1" dataMounts [] staleRegistry).instances :=
  C14_registry_update okProvider "web" "ami-1" dataMounts [] staleRegistry
    ⟨"i-1", "web", .Pending, .AWS, "ami-1", 0⟩ (by decide)

/-- C15: `ShouldRetry` returns true exactly when the status is at least 500,
or the error is classified retryable, or the outcome is a throttle condition;
`shouldThrottle` returns true exactly when the status is 502, 503 or 504 or
the throttle flag is set. -/
theorem C15_retry_eligibility (d : DefaultRetryer) (r : Request) :
    (d.ShouldRetry r = true ↔
      r.StatusCode ≥ 500 ∨ r.IsErrorRetryable = true ∨ d.shouldThrottle r = true) ∧
    (d.shouldThrottle r = true ↔
      r.StatusCode = 502 ∨ r.StatusCode = 503 ∨ r.StatusCode = 504 ∨
        r.IsErrorThrottle = true) := by
  constructor
  · unfold DefaultRetryer.ShouldRetry
    by_cases h : r.StatusCode ≥ 500
    · simp [h]
    · simp [h]
  · unfold DefaultRetryer.shouldThrottle
    by_cases h : r.StatusCode = 502 ∨ r.StatusCode = 503 ∨ r.StatusCode = 504
    · rw [if_pos h]
      simp only [true_iff]
      rcases h with h | h | h
      · exact Or.inl h
      · exact Or.inr (Or.inl h)
      · exact Or.inr (Or.inr (Or.inl h))
    · rw [if_neg h]
      constructor
      · intro ht
        exact Or.inr (Or.inr (Or.inr ht))
      · rintro (h1 | h1 | h1 | h1)
        · exact absurd (Or.inl h1) h
        · exact absurd (Or.inr (Or.inl h1)) h
        · exact absurd (Or.inr (Or.inr h1)) h
        · exact h1

/-- C16 at a throttled request (status 503) on attempt 14 with jitter 0:
`RetryRules` returns `2^13 * 1000` milliseconds, not `2^8 * 1000`. -/
theorem C16_throttled_exponent_above_cap :
    sampleRetryer.shouldThrottle (throttledRequest 14) = true ∧
    sampleRetryer.RetryRules (throttledRequest 14) 0 = 2 ^ 13 * (0 + 1000) * Millisecond ∧
    sampleRetryer.RetryRules (throttledRequest 14) 0 ≠
      2 ^ (min 14 8) * (0 + 1000) * Millisecond := by
  decide

/-- C17 at a throttled request (status 503) on attempt 14 with jitter 29:
`RetryRules` returns 8429568 milliseconds, above the bound of 263424. -/
theorem C17_throttled_bound_exceeded :
    sampleRetryer.shouldThrottle (throttledRequest 14) = true ∧
    sampleRetryer.RetryRules (throttledRequest 14) 29 = 8429568 * Millisecond ∧
    ¬ sampleRetryer.RetryRules (throttledRequest 14) 29 ≤ 2 ^ 8 * (29 + 1000) * Millisecond := by
  decide

/-- C18: for a fixed throttle classification and attempt counts
`0 ≤ n ≤ m ≤ cap` (8 when throttled, 13 otherwise), the delay at `n` is at most
the delay at `m`: for `n < m` whatever the two jitter values in `0..29`, and
for equal jitter. -/
theorem C18_delay_monotone (d : DefaultRetryer) (r : Request) (n m j j' : Int)
    (hn : 0 ≤ n) (hnm : n ≤ m) (hm : m ≤ if d.shouldThrottle r = true then 8 else 13)
    (hj0 : 0 ≤ j) (hj : j ≤ 29) (hj0' : 0 ≤ j') (hj' : j' ≤ 29) :
    (n < m → d.RetryRules { r with RetryCount := n } j ≤
      d.RetryRules { r with RetryCount := m } j') ∧
    d.RetryRules { r with RetryCount := n } j ≤ d.RetryRules { r with RetryCount := m } j := by
  have hm0 : 0 ≤ m := le_trans hn hnm
  have en := usedExponent_within_cap d r n hn (le_trans hnm hm)
  have em := usedExponent_within_cap d r m hm0 hm
  have hbase : ∀ k, usedBase d { r with RetryCount := k } = usedBase d r := fun _ => rfl
  have hb := usedBase_bounds d r
  have hms : (0 : Int) ≤ Millisecond := by decide
  have hpow : (2 : Int) ^ n.toNat ≤ 2 ^ m.toNat :=
    pow_le_pow_right₀ (by norm_num) (by omega)
  have hpos : (0 : Int) ≤ 2 ^ n.toNat := by positivity
  constructor
  · intro hlt
    rw [RetryRules_eq d _ j hn hj0 hj, RetryRules_eq d _ j' hm0 hj0' hj', en, em, hbase, hbase]
    apply mul_le_mul_of_nonneg_right _ hms
    have hstep : (2 : Int) ^ (n.toNat + 1) ≤ 2 ^ m.toNat :=
      pow_le_pow_right₀ (by norm_num) (by omega)
    have h1 : (2 : Int) ^ n.toNat * (j + usedBase d r) ≤
        2 ^ n.toNat * (2 * (j' + usedBase d r)) :=
      mul_le_mul_of_nonneg_left (by omega) hpos
    have h2 : (2 : Int) ^ n.toNat * (2 * (j' + usedBase d r)) =
        2 ^ (n.toNat + 1) * (j' + usedBase d r) := by ring
    have h3 : (2 : Int) ^ (n.toNat + 1) * (j' + usedBase d r) ≤
        2 ^ m.toNat * (j' + usedBase d r) :=
      mul_le_mul_of_nonneg_right hstep (by omega)
    calc (2 : Int) ^ n.toNat * (j + usedBase d r)
        ≤ 2 ^ n.toNat * (2 * (j' + usedBase d r)) := h1
      _ = 2 ^ (n.toNat + 1) * (j' + usedBase d r) := h2
      _ ≤ 2 ^ m.toNat * (j' + usedBase d r) := h3
  · rw [RetryRules_eq d _ j hn hj0 hj, RetryRules_eq d _ j hm0 hj0 hj, en, em, hbase, hbase]
    apply mul_le_mul_of_nonneg_right _ hms
    exact mul_le_mul_of_nonneg_right hpow (by omega)

/-- Attempts 2 and 5 of a throttled request, jitter 29 and 0. -/
theorem C18_delay_monotone_witness :
    ((2 : Int) < 5 → sampleRetryer.RetryRules { throttledRequest 0 with RetryCount := 2 } 29 ≤
      sampleRetryer.RetryRules { throttledRequest 0 with RetryCount := 5 } 0) ∧
    sampleRetryer.RetryRules { throttledRequest 0 with RetryCount := 2 } 29 ≤
      sampleRetryer.RetryRules { throttledRequest 0 with RetryCount := 5 } 29 :=
  C18_delay_monotone sampleRetryer (throttledRequest 0) 2 5 29 0
    (by decide) (by decide) (by decide) (by decide) (by decide) (by decide) (by decide)

/-- C19 fails for a response with status 400 whose error is flagged as a
throttle error but not as retryable: `ShouldRetry` returns true. -/
theorem C19_counterexample :
    throttleFlagRequest.StatusCode < 500 ∧ throttleFlagRequest.IsErrorRetryable = false ∧
    sampleRetryer.ShouldRetry throttleFlagRequest = true := by
  decide

/-- C19, amended: an outcome with status below 500 whose error is neither
classified retryable nor a throttle condition is not retried; an outcome with
status at least 500 that is not a throttle condition is retried, and its delay
is `2^min(n, 13) * (jitter + 30)` milliseconds. -/
theorem C19_classification (d : DefaultRetryer) (r : Request) :
    (r.StatusCode < 500 → r.IsErrorRetryable = false → d.shouldThrottle r = false →
      d.ShouldRetry r = false) ∧
    (r.StatusCode ≥ 500 → d.shouldThrottle r = false →
      d.ShouldRetry r = true ∧
      ∀ j : Int, 0 ≤ r.RetryCount → 0 ≤ j → j ≤ 29 →
        d.RetryRules r j = 2 ^ (min r.RetryCount 13).toNat * (j + 30) * Millisecond) := by
  constructor
  · intro hs hr ht
    unfold DefaultRetryer.ShouldRetry
    have : ¬ r.StatusCode ≥ 500 := by omega
    simp [this, hr, ht]
  · intro hs ht
    constructor
    · unfold DefaultRetryer.ShouldRetry
      simp [hs]
    · intro j hn hj0 hj
      rw [RetryRules_eq d r j hn hj0 hj]
      have he : usedExponent d r = (min r.RetryCount 13).toNat := by
        unfold usedExponent
        by_cases h13 : r.RetryCount > 13
        · have : min r.RetryCount 13 = 13 := by omega
          simp [h13, this]
        · have : min r.RetryCount 13 = r.RetryCount := by omega
          simp [h13, ht, this]
      have hb : usedBase d r = 30 := by
        unfold usedBase
        simp [ht]
      rw [he, hb]

/-- A response with status 404 and no flag is not retried; a response with
status 500 is retried with base 30 and cap 13. -/
theorem C19_classification_witness :
    sampleRetryer.ShouldRetry notFoundRequest = false ∧
    (sampleRetryer.ShouldRetry (serverErrorRequest 20) = true ∧
      ∀ j : Int, 0 ≤ (serverErrorRequest 20).RetryCount → 0 ≤ j → j ≤ 29 →
        sampleRetryer.RetryRules (serverErrorRequest 20) j =
          2 ^ (min (serverErrorRequest 20).RetryCount 13).toNat * (j + 30) * Millisecond) :=
  ⟨(C19_classification sampleRetryer notFoundRequest).1 (by decide) rfl rfl,
    (C19_classification sampleRetryer (serverErrorRequest 20)).2 (by decide) rfl⟩

/-- C20: at every attempt `n ≥ 0`, the smallest delay of a throttled outcome
(jitter 0) is at least the smallest delay of a non-throttled outcome (jitter
0) at the same attempt. -/
theorem C20_throttled_floor_higher (d : DefaultRetryer) (rt rn : Request)
    (ht : d.shouldThrottle rt = true) (hnt : d.shouldThrottle rn = false)
    (hsame : rt.RetryCount = rn.RetryCount) (hn : 0 ≤ rn.RetryCount) :
    d.RetryRules rn 0 ≤ d.RetryRules rt 0 := by
  rw [RetryRules_eq d rn 0 hn (le_refl 0) (by norm_num),
    RetryRules_eq d rt 0 (hsame ▸ hn) (le_refl 0) (by norm_num)]
  have hms : (0 : Int) ≤ Millisecond := by decide
  apply mul_le_mul_of_nonneg_right _ hms
  have hbt : usedBase d rt = 1000 := by simp [usedBase, ht]
  have hbn : usedBase d rn = 30 := by simp [usedBase, hnt]
  rw [hbt, hbn]
  unfold usedExponent
  rw [ht, hnt, hsame]
  by_cases h13 : rn.RetryCount > 13
  · simp [h13]
  · by_cases h8 : rn.RetryCount > 8
    · simp only [h13, h8, if_false, if_true, and_self, Bool.false_eq_true, false_and]
      have hk : rn.RetryCount.toNat ≤ 13 := by omega
      have hpow : (2 : Int) ^ rn.RetryCount.toNat ≤ 2 ^ 13 :=
        pow_le_pow_right₀ (by norm_num) hk
      norm_num at hpow ⊢
      omega
    · simp only [h13, h8, if_false, and_false, Bool.false_eq_true, false_and]
      have hpos : (0 : Int) ≤ 2 ^ rn.RetryCount.toNat := by positivity
      exact mul_le_mul_of_nonneg_left (by norm_num) hpos

/-- Attempt 13: the throttled exponent is 8, the other is 13. -/
theorem C20_throttled_floor_higher_witness :
    sampleRetryer.RetryRules (serverErrorRequest 13) 0 ≤
      sampleRetryer.RetryRules (throttledRequest 13) 0 :=
  C20_throttled_floor_higher sampleRetryer (throttledRequest 13) (serverErrorRequest 13)
    rfl rfl rfl (by decide)

end Unik
